import Mathlib

/-!
Verification of the Gestaodevendas point-of-sale services against their
natural-language specification.  The Python services are shallowly embedded:
each SQL table is a Lean list of row structures, each service method a pure
function from state to (result, state).
-/

set_option maxHeartbeats 1000000
set_option linter.unusedVariables false
set_option linter.unreachableTactic false
set_option linter.unusedTactic false

/-- Python str.upper over the characters (the services handle ASCII data). -/
def pyUpper (s : String) : String := ⟨s.data.map Char.toUpper⟩

/-- Python str.lower over the characters. -/
def pyLower (s : String) : String := ⟨s.data.map Char.toLower⟩

/-- Python str.strip: drops leading and trailing whitespace. -/
def pyTrim (s : String) : String :=
  ⟨((s.data.dropWhile Char.isWhitespace).reverse.dropWhile Char.isWhitespace).reverse⟩

/-! ## Sale registration model (`core/venda_service.py`) -/

/-- Row of the `produtos` table (the columns used by the sale services). -/
structure Produto where
  id : Nat
  nome : String
  preco_venda : Int
  quantidade_estoque : Int
  ativo : Bool
  deriving Repr, DecidableEq

/-- One element of the `itens` argument of `registrar_venda`. -/
structure ItemPedido where
  produto_id : Nat
  quantidade : Int
  preco_unitario : Option Int
  promocao_id : Option Nat
  deriving Repr, DecidableEq

/-- Row of the `vendas` table. -/
structure Venda where
  id : Nat
  cliente_id : Option Nat
  valor_total : Int
  forma_pagamento : String
  usuario_registro : String
  deriving Repr, DecidableEq

/-- Row of the `itens_venda` table. -/
structure ItemVenda where
  venda_id : Nat
  produto_id : Nat
  quantidade : Int
  preco_unitario : Int
  promocao_id : Option Nat
  deriving Repr, DecidableEq

/-- State touched by the sale services: the three tables, the autoincrement
counter of `vendas`, and the number of rows of the audit `logs` table. -/
structure VendaState where
  produtos : List Produto
  vendas : List Venda
  itens_venda : List ItemVenda
  next_venda_id : Nat
  logs : Nat
  deriving Repr, DecidableEq

/-- Embeds the query `SELECT ... FROM produtos WHERE id = ? AND ativo = 1`
followed by `fetchone`: the first active row with the given id. -/
def findProdutoAtivo (ps : List Produto) (pid : Nat) : Option Produto :=
  ps.find? (fun p => p.id == pid && p.ativo)

/-- An element of the `itens_processados` list built by `registrar_venda`. -/
structure ItemProcessado where
  produto_id : Nat
  quantidade : Int
  preco_unitario : Int
  promocao_id : Option Nat
  subtotal : Int
  deriving Repr, DecidableEq

/-- Validation-and-pricing loop of `registrar_venda`: resolves each item
against the `produtos` table, rejects a missing/inactive product or a
quantity above the product's on-hand stock, and accumulates the subtotals.
No table is modified in this phase. -/
def processarItens (ps : List Produto) :
    List ItemPedido → Except String (List ItemProcessado × Int)
  | [] => .ok ([], 0)
  | item :: rest =>
    match findProdutoAtivo ps item.produto_id with
    | none => .error ("Produto ID " ++ toString item.produto_id ++ " não encontrado")
    | some produto =>
      if produto.quantidade_estoque < item.quantidade then
        .error ("Estoque insuficiente para " ++ produto.nome)
      else
        let preco := item.preco_unitario.getD produto.preco_venda
        match processarItens ps rest with
        | .error e => .error e
        | .ok (procs, total) =>
          .ok (⟨item.produto_id, item.quantidade, preco, item.promocao_id,
                preco * item.quantidade⟩ :: procs,
               preco * item.quantidade + total)

/-- Embeds `UPDATE produtos SET quantidade_estoque = quantidade_estoque - ?
WHERE id = ?`. -/
def decrementarEstoque (ps : List Produto) (pid : Nat) (q : Int) : List Produto :=
  ps.map (fun p =>
    if p.id == pid then { p with quantidade_estoque := p.quantidade_estoque - q } else p)

/-- Embeds `UPDATE produtos SET quantidade_estoque = quantidade_estoque + ?
WHERE id = ?`. -/
def devolverEstoque (ps : List Produto) (pid : Nat) (q : Int) : List Produto :=
  ps.map (fun p =>
    if p.id == pid then { p with quantidade_estoque := p.quantidade_estoque + q } else p)

/-- The stock-decrement loop of `registrar_venda` over the processed items. -/
def aplicarItens (ps : List Produto) (procs : List ItemProcessado) : List Produto :=
  procs.foldl (fun acc it => decrementarEstoque acc it.produto_id it.quantidade) ps

/-- VendaService.registrar_venda.  Returns ((sucesso, mensagem, id_venda),
new state).  Every early return leaves the state unchanged; on success the
sale row, its line items, a stock decrement per item, and one audit entry
are applied. -/
def registrar_venda (s : VendaState) (cliente_id : Option Nat)
    (itens : List ItemPedido) (forma_pagamento usuario : String) :
    (Bool × String × Option Nat) × VendaState :=
  if itens.isEmpty then ((false, "Nenhum item na venda", none), s)
  else
    match processarItens s.produtos itens with
    | .error msg => ((false, msg, none), s)
    | .ok (procs, valor_total) =>
      let vid := s.next_venda_id
      let venda : Venda :=
        { id := vid, cliente_id := cliente_id, valor_total := valor_total,
          forma_pagamento := forma_pagamento, usuario_registro := usuario }
      let novos := procs.map (fun it =>
        ItemVenda.mk vid it.produto_id it.quantidade it.preco_unitario it.promocao_id)
      (((true, "Venda #" ++ toString vid ++ " registrada com sucesso!", some vid)),
       { produtos := aplicarItens s.produtos procs,
         vendas := s.vendas ++ [venda],
         itens_venda := s.itens_venda ++ novos,
         next_venda_id := vid + 1,
         logs := s.logs + 1 })

/-- VendaService.estornar_venda.  Looks the sale up, restores each line
item's quantity to the product's stock, deletes the line items and the sale
row, and appends one audit entry. -/
def estornar_venda (s : VendaState) (venda_id : Nat) : (Bool × String) × VendaState :=
  match s.vendas.find? (fun v => v.id == venda_id) with
  | none => ((false, "Venda #" ++ toString venda_id ++ " não encontrada"), s)
  | some _ =>
    let itens := s.itens_venda.filter (fun it => it.venda_id == venda_id)
    if itens.isEmpty then
      ((false, "Venda #" ++ toString venda_id ++ " não possui itens"), s)
    else
      ((true, "Venda #" ++ toString venda_id ++ " estornada com sucesso!"),
       { produtos := itens.foldl
           (fun acc it => devolverEstoque acc it.produto_id it.quantidade) s.produtos,
         vendas := s.vendas.filter (fun v => !(v.id == venda_id)),
         itens_venda := s.itens_venda.filter (fun it => !(it.venda_id == venda_id)),
         next_venda_id := s.next_venda_id,
         logs := s.logs + 1 })

/-- Total quantity the processed items take from a given product id. -/
def totalQty (procs : List ItemProcessado) (pid : Nat) : Int :=
  ((procs.filter (fun it => it.produto_id == pid)).map ItemProcessado.quantidade).sum

/-- Total quantity the line items of a sale return to a given product id. -/
def totalQtyVenda (its : List ItemVenda) (pid : Nat) : Int :=
  ((its.filter (fun it => it.produto_id == pid)).map ItemVenda.quantidade).sum

/-! ## Client registration against the shipped schema (`core/database.py`,
`core/cliente_service.py`) -/

/-- Column names of the `clientes` table exactly as created by
Database.init_schema. -/
def clientesSchemaCols : List String :=
  ["id", "nome", "cpf", "email", "telefone", "data_nascimento", "endereco",
   "cidade", "estado", "cep", "data_cadastro", "usuario_cadastro"]

/-- Column list named by the INSERT statement of
ClienteService.cadastrar_individual. -/
def cadastrarIndividualInsertCols : List String :=
  ["nome", "cpf", "email", "telefone", "data_nascimento", "endereco",
   "cidade", "estado", "cep", "usuario_cadastro", "ativo"]

/-- Embeds sqlite's validation of an INSERT column list against the table's
schema: the statement executes iff every named column exists in the table;
otherwise it raises an OperationalError before writing anything. -/
def insertOk (schemaCols cols : List String) : Bool :=
  cols.all (fun c => schemaCols.contains c)

/-- Row of the `clientes` table as the service writes it. -/
structure Cliente where
  id : Nat
  nome : String
  cpf : Option String
  email : Option String
  telefone : Option String
  data_nascimento : Option String
  endereco : Option String
  cidade : Option String
  estado : Option String
  cep : Option String
  usuario_cadastro : String
  deriving Repr, DecidableEq

/-- State touched by ClienteService.cadastrar_individual: the `clientes`
table, its autoincrement counter, and the audit `logs` row count. -/
structure ClienteState where
  clientes : List Cliente
  next_cliente_id : Nat
  logs : Nat
  deriving Repr, DecidableEq

/-- Input dictionary of cadastrar_individual.  `cpf = none` models both an
absent key and a falsy value, matching the truthiness test
`if dados.get("cpf")`.  The remaining optional fields are carried opaquely. -/
structure DadosCliente where
  nome : String
  cpf : Option String
  email : Option String
  telefone : Option String
  data_nascimento : Option String
  endereco : Option String
  cidade : Option String
  estado : Option String
  cep : Option String
  deriving Repr, DecidableEq

/-- ClienteService.cadastrar_individual, run against the schema produced by
Database.init_schema.  The CPF cleaning and check-digit validation of
`core/security.py` are abstracted as parameters, as is the date parser:
the claim quantifies over them.  The INSERT is guarded by `insertOk` on the
shipped schema columns; when it fails, the raised error is caught and
returned as (False, message) with no row written. -/
def cadastrar_individual (cleanCpf : String → String) (validarCpf : String → Bool)
    (parseDate : String → Option String) (s : ClienteState)
    (dados : DadosCliente) (usuario_cadastro : String) :
    (Bool × String) × ClienteState :=
  let nome := pyUpper (pyTrim dados.nome)
  if nome = "" then ((false, "Nome é obrigatório"), s)
  else
    let checkCpf : Option (Option String) :=
      match dados.cpf with
      | none => some none
      | some c =>
        let limpo := cleanCpf c
        if !(validarCpf limpo) then none
        else if s.clientes.any (fun r => r.cpf == some limpo) then none
        else some (some limpo)
    match checkCpf with
    | none =>
      -- "CPF inválido" or "CPF já cadastrado"; both leave the state alone
      ((false, "CPF inválido"), s)
    | some cpf_limpo =>
      if insertOk clientesSchemaCols cadastrarIndividualInsertCols then
        ((true, "Cliente cadastrado com sucesso!"),
         { clientes := s.clientes ++
             [⟨s.next_cliente_id, nome, cpf_limpo,
               dados.email.map (fun e => pyTrim (pyLower e)),
               dados.telefone,
               dados.data_nascimento.bind parseDate,
               dados.endereco, dados.cidade, dados.estado, dados.cep,
               usuario_cadastro⟩],
           next_cliente_id := s.next_cliente_id + 1,
           logs := s.logs + 1 })
      else
        ((false, "Erro ao cadastrar: table clientes has no column named ativo"), s)

/-! ## Permission check (`core/auth_service.py`) -/

/-- Auth.verificar_permissoes. -/
def verificar_permissoes (user_level needed_level : String) : Bool :=
  if user_level = "ADMIN" then true
  else if user_level = "OPERADOR" then
    needed_level == "OPERADOR" || needed_level == "VISUALIZADOR"
  else if user_level = "VISUALIZADOR" then needed_level == "VISUALIZADOR"
  else false

/-! ## Category and promotion hard deletion, category/product/promotion
creation (`core/categoria_service.py`, `core/promocao_service.py`,
`core/produto_service.py`) -/

/-- Row of the `categorias` table. -/
structure Categoria where
  id : Nat
  nome : String
  descricao : Option String
  ativo : Int
  deriving Repr, DecidableEq

/-- Row of the `produtos` table as the catalog services read and write it
(the report-only columns `data_cadastro` and `descricao` are not consulted
by any claim and are elided). -/
structure ProdutoCadastro where
  id : Nat
  codigo_barras : Option String
  nome : String
  categoria_id : Option Nat
  fabricante : Option String
  preco_custo : Option Int
  preco_venda : Int
  quantidade_estoque : Int
  estoque_minimo : Int
  ativo : Bool
  usuario_cadastro : String
  deriving Repr, DecidableEq

/-- State of the catalog services: `categorias` and `produtos` with their
autoincrement counters, plus the audit `logs` row count. -/
structure CatalogState where
  categorias : List Categoria
  produtos : List ProdutoCadastro
  next_categoria_id : Nat
  next_produto_id : Nat
  logs : Nat
  deriving Repr, DecidableEq

/-- CategoriaService.cadastrar_categoria. -/
def cadastrar_categoria (s : CatalogState) (nome : String) (descricao : Option String)
    (usuario : String) : (Bool × String) × CatalogState :=
  let nomeU := pyUpper (pyTrim nome)
  if nomeU = "" then ((false, "Nome da categoria é obrigatório"), s)
  else if s.categorias.any (fun c => c.nome == nomeU) then
    ((false, "Categoria já existe"), s)
  else
    ((true, "Categoria cadastrada com sucesso!"),
     { s with
       categorias := s.categorias ++
         [⟨s.next_categoria_id, nomeU,
           match descricao with
           | some d => if d = "" then none else some (pyTrim d)
           | none => none,
           1⟩],
       next_categoria_id := s.next_categoria_id + 1,
       logs := s.logs + 1 })

/-- CategoriaService.excluir_categoria: refuses while any active product
references the category, otherwise hard-deletes the row and logs. -/
def excluir_categoria (s : CatalogState) (categoria_id : Nat) (usuario : String) :
    (Bool × String) × CatalogState :=
  let total := (s.produtos.filter
    (fun p => p.categoria_id == some categoria_id && p.ativo)).length
  if 0 < total then
    ((false, "Não é possível excluir: categoria possui produtos ativos"), s)
  else
    ((true, "Categoria excluída com sucesso!"),
     { s with
       categorias := s.categorias.filter (fun c => !(c.id == categoria_id)),
       logs := s.logs + 1 })

/-- Input dictionary of ProdutoService.cadastrar_produto.  `categoria = none`
models an absent or falsy value (`if dados.get("categoria")`), and the
barcode default mirrors `dados.get("codigo_barras", "").strip()`. -/
structure DadosProduto where
  nome : String
  preco_venda : Int
  codigo_barras : String
  categoria : Option String
  fabricante : Option String
  preco_custo : Option Int
  quantidade_estoque : Int
  estoque_minimo : Int
  ativo : Bool
  deriving Repr, DecidableEq

/-- ProdutoService.cadastrar_produto.  When the given category name does not
match an existing `categorias.nome`, the service first calls
cadastrar_categoria (which uppercases the name and writes its own audit
entry) and then re-fetches the id by the raw, non-uppercased name. -/
def cadastrar_produto (s : CatalogState) (dados : DadosProduto) (usuario : String) :
    (Bool × String) × CatalogState :=
  let nomeU := pyUpper (pyTrim dados.nome)
  if nomeU = "" then ((false, "Nome do produto é obrigatório"), s)
  else if dados.preco_venda ≤ 0 then
    ((false, "Preço de venda deve ser maior que zero"), s)
  else
    let cb := pyTrim dados.codigo_barras
    if cb ≠ "" && s.produtos.any (fun p => p.codigo_barras == some cb) then
      ((false, "Código de barras já cadastrado"), s)
    else
      let resolved : Option Nat × CatalogState :=
        match dados.categoria with
        | none => (none, s)
        | some catName =>
          match s.categorias.find? (fun c => c.nome == catName) with
          | some c => (some c.id, s)
          | none =>
            let r := cadastrar_categoria s catName
              (some ("Categoria criada automaticamente para " ++ nomeU)) usuario
            if r.1.1 then
              match r.2.categorias.find? (fun c => c.nome == catName) with
              | some c => (some c.id, r.2)
              | none => (none, r.2)
            else (none, r.2)
      let s1 := resolved.2
      ((true, "Produto cadastrado com sucesso!"),
       { s1 with
         produtos := s1.produtos ++
           [⟨s1.next_produto_id,
             if cb = "" then none else some cb,
             nomeU, resolved.1, dados.fabricante, dados.preco_custo,
             dados.preco_venda, dados.quantidade_estoque, dados.estoque_minimo,
             dados.ativo, usuario⟩],
         next_produto_id := s1.next_produto_id + 1,
         logs := s1.logs + 1 })

/-- Row of the `promocoes` table (columns no claim reads are elided). -/
structure Promocao where
  id : Nat
  nome : String
  tipo : String
  valor_desconto : Int
  data_inicio : Int
  data_fim : Int
  status : String
  deriving Repr, DecidableEq

/-- State of the promotion service: the `promocoes` table, the `itens_venda`
rows that may reference a promotion, the autoincrement counter, and the
audit `logs` row count. -/
structure PromocaoState where
  promocoes : List Promocao
  itens_venda : List ItemVenda
  next_promocao_id : Nat
  logs : Nat
  deriving Repr, DecidableEq

/-- PromocaoService.criar_promocao.  Dates are embedded as integers ordered
like the `date` objects the service compares; monetary values as integers. -/
def criar_promocao (s : PromocaoState) (nome : String) (descricao : String)
    (tipo : String) (valor_desconto : Int) (data_inicio data_fim : Int)
    (status : String) (usuario : String) : (Bool × String) × PromocaoState :=
  if pyTrim nome = "" then ((false, "Nome da promoção é obrigatório"), s)
  else if data_fim < data_inicio then
    ((false, "Data de término deve ser posterior à data de início"), s)
  else if valor_desconto ≤ 0 then
    ((false, "Valor do desconto deve ser maior que zero"), s)
  else
    ((true, "Promoção criada com sucesso!"),
     { s with
       promocoes := s.promocoes ++
         [⟨s.next_promocao_id, pyTrim nome, tipo, valor_desconto,
           data_inicio, data_fim, status⟩],
       next_promocao_id := s.next_promocao_id + 1,
       logs := s.logs + 1 })

/-- PromocaoService.excluir_promocao: refuses while any sale line item
references the promotion, otherwise hard-deletes the row and logs. -/
def excluir_promocao (s : PromocaoState) (promocao_id : Nat) (usuario : String) :
    (Bool × String) × PromocaoState :=
  let total := (s.itens_venda.filter
    (fun it => it.promocao_id == some promocao_id)).length
  if 0 < total then
    ((false, "Não é possível excluir: promoção utilizada em vendas"), s)
  else
    ((true, "Promoção excluída com sucesso!"),
     { s with
       promocoes := s.promocoes.filter (fun pr => !(pr.id == promocao_id)),
       logs := s.logs + 1 })

/-! ## Query-result cache (`core/database.py`, OptimizedDatabase) -/

/-- OptimizedDatabase.MAX_CACHE_SIZE. -/
def MAX_CACHE_SIZE : Nat := 50

/-- OptimizedDatabase.DEFAULT_TTL (seconds). -/
def DEFAULT_TTL : Nat := 300

/-- One value of the `_query_cache` dict: the timestamp the entry was stored
at (in whole seconds) and the cached query result (abstracted to a number:
only identity matters to the claims). -/
structure CacheEntry where
  time : Nat
  data : Nat
  deriving Repr, DecidableEq

/-- Python's `timedelta.seconds` attribute on the nonnegative difference of
two datetimes: the seconds-within-day component, NOT the total duration —
it wraps every 86400 seconds. -/
def timedeltaSeconds (d : Nat) : Nat := d % 86400

/-- The `_query_cache` dict as an association list in insertion order with
unique keys. -/
def cacheLookup (c : List (String × CacheEntry)) (k : String) : Option CacheEntry :=
  (c.find? (fun kv => kv.1 == k)).map Prod.snd

/-- Dict assignment `self._query_cache[key] = entry`: replaces in place, or
appends a new key. -/
def cacheInsert (c : List (String × CacheEntry)) (k : String) (e : CacheEntry) :
    List (String × CacheEntry) :=
  if c.any (fun kv => kv.1 == k) then
    c.map (fun kv => if kv.1 == k then (k, e) else kv)
  else c ++ [(k, e)]

/-- OptimizedDatabase._clean_old_cache: drops entries whose
`timedelta.seconds` age exceeds the TTL, then, if more than MAX_CACHE_SIZE
entries would remain, also drops the oldest entries beyond that size. -/
def cleanOldCache (c : List (String × CacheEntry)) (now ttl : Nat) :
    List (String × CacheEntry) :=
  let expired := (c.filter
    (fun kv => ttl < timedeltaSeconds (now - kv.2.time))).map Prod.fst
  let to_remove :=
    if MAX_CACHE_SIZE < c.length - expired.length then
      let sorted := c.mergeSort (fun a b => a.2.time ≤ b.2.time)
      expired ++ ((sorted.take (c.length - MAX_CACHE_SIZE)).map Prod.fst).filter
        (fun k => !(expired.contains k))
    else expired
  c.filter (fun kv => !(to_remove.contains kv.1))

/-- OptimizedDatabase.read_sql: serves the cached result when the key is
present and `timedelta.seconds` of its age is below the TTL; otherwise
queries (the fresh result is the `fresh` argument), stores it, and cleans
the cache.  Returns (result, new cache). -/
def read_sql_cached (c : List (String × CacheEntry)) (key : String)
    (now ttl fresh : Nat) : Nat × List (String × CacheEntry) :=
  match cacheLookup c key with
  | some e =>
    if timedeltaSeconds (now - e.time) < ttl then (e.data, c)
    else
      let c1 := cacheInsert c key ⟨now, fresh⟩
      (fresh, cleanOldCache c1 now ttl)
  | none =>
    let c1 := cacheInsert c key ⟨now, fresh⟩
    (fresh, cleanOldCache c1 now ttl)

/-! ## Partial updates (`core/cliente_service.py` atualizar_cliente,
`core/produto_service.py` atualizar_produto) -/

/-- A sqlite value: the dynamic typing of the columns a SET clause writes. -/
inductive SqlVal where
  | null : SqlVal
  | int : Int → SqlVal
  | text : String → SqlVal
  deriving Repr, DecidableEq

/-- Row of the `clientes` table as atualizar_cliente addresses it, with the
dynamically typed columns the SET clauses can name. -/
structure ClienteRow where
  id : Nat
  nome : SqlVal
  email : SqlVal
  telefone : SqlVal
  data_nascimento : SqlVal
  endereco : SqlVal
  cidade : SqlVal
  estado : SqlVal
  cep : SqlVal
  ativo : SqlVal
  cpf : SqlVal
  deriving Repr, DecidableEq

/-- Applies one `column = ?` SET assignment to a `clientes` row. -/
def setClienteCol (r : ClienteRow) (col : String) (v : SqlVal) : ClienteRow :=
  if col = "nome" then { r with nome := v }
  else if col = "email" then { r with email := v }
  else if col = "telefone" then { r with telefone := v }
  else if col = "data_nascimento" then { r with data_nascimento := v }
  else if col = "endereco" then { r with endereco := v }
  else if col = "cidade" then { r with cidade := v }
  else if col = "estado" then { r with estado := v }
  else if col = "cep" then { r with cep := v }
  else if col = "ativo" then { r with ativo := v }
  else r

/-- The `dados` dictionary of atualizar_cliente.  A field is `none` when the
key is absent or its value is None: the loop skips both
(`campo_dados in dados and dados[campo_dados] is not None`). -/
structure DadosAtualizaCliente where
  nome : Option String
  email : Option String
  telefone : Option String
  data_nascimento : Option String
  endereco : Option String
  cidade : Option String
  estado : Option String
  cep : Option String
  ativo : Option Bool
  deriving Repr, DecidableEq

/-- One segment of the dynamically built SET clause list. -/
def optCampo (col : String) : Option SqlVal → List (String × SqlVal)
  | some v => [(col, v)]
  | none => []

/-- The `campos` list atualizar_cliente builds, in the mapeamento's
iteration order, with the per-field transformations (upper-cased name,
lower-cased e-mail, parsed date that falls back to NULL, 1/0 active flag). -/
def camposCliente (parseDate : String → Option String) (d : DadosAtualizaCliente) :
    List (String × SqlVal) :=
  optCampo "nome" (d.nome.map (fun v => SqlVal.text (pyUpper (pyTrim v)))) ++
  optCampo "email" (d.email.map (fun v => SqlVal.text (pyTrim (pyLower v)))) ++
  optCampo "telefone" (d.telefone.map SqlVal.text) ++
  optCampo "data_nascimento" (d.data_nascimento.map (fun v =>
    match parseDate v with
    | some iso => SqlVal.text iso
    | none => SqlVal.null)) ++
  optCampo "endereco" (d.endereco.map SqlVal.text) ++
  optCampo "cidade" (d.cidade.map SqlVal.text) ++
  optCampo "estado" (d.estado.map SqlVal.text) ++
  optCampo "cep" (d.cep.map SqlVal.text) ++
  optCampo "ativo" (d.ativo.map (fun v => SqlVal.int (if v then 1 else 0)))

/-- ClienteService.atualizar_cliente.  The WHERE clause targets one id; the
UPDATE applies every built SET assignment to the matching rows only. -/
def atualizar_cliente (parseDate : String → Option String)
    (clientes : List ClienteRow) (cliente_id : Nat) (d : DadosAtualizaCliente) :
    (Bool × String) × List ClienteRow :=
  match clientes.find? (fun r => r.id == cliente_id) with
  | none => ((false, "Cliente não encontrado"), clientes)
  | some _ =>
    let campos := camposCliente parseDate d
    if campos.isEmpty then ((false, "Nenhum dado para atualizar"), clientes)
    else
      ((true, "Cliente atualizado com sucesso!"),
       clientes.map (fun r =>
         if r.id == cliente_id then
           campos.foldl (fun acc cv => setClienteCol acc cv.1 cv.2) r
         else r))

/-- Row of the `produtos` table as atualizar_produto addresses it. -/
structure ProdutoUpdRow where
  id : Nat
  codigo_barras : SqlVal
  nome : SqlVal
  descricao : SqlVal
  categoria_id : SqlVal
  fabricante : SqlVal
  preco_custo : SqlVal
  preco_venda : SqlVal
  quantidade_estoque : SqlVal
  estoque_minimo : SqlVal
  ativo : SqlVal
  deriving Repr, DecidableEq

/-- Applies one `column = ?` SET assignment to a `produtos` row. -/
def setProdutoCol (r : ProdutoUpdRow) (col : String) (v : SqlVal) : ProdutoUpdRow :=
  if col = "codigo_barras" then { r with codigo_barras := v }
  else if col = "nome" then { r with nome := v }
  else if col = "descricao" then { r with descricao := v }
  else if col = "categoria_id" then { r with categoria_id := v }
  else if col = "fabricante" then { r with fabricante := v }
  else if col = "preco_custo" then { r with preco_custo := v }
  else if col = "preco_venda" then { r with preco_venda := v }
  else if col = "quantidade_estoque" then { r with quantidade_estoque := v }
  else if col = "estoque_minimo" then { r with estoque_minimo := v }
  else if col = "ativo" then { r with ativo := v }
  else r

/-- The `dados` dictionary of atualizar_produto.  Unlike the client update,
the loop appends a field whenever the key is present, even when its value is
None: `none` is an absent key, `some none` an explicit None (written as
NULL), `some (some v)` a value (transformed). -/
structure DadosAtualizaProduto where
  codigo_barras : Option (Option String)
  nome : Option (Option String)
  descricao : Option (Option String)
  categoria_id : Option (Option Int)
  fabricante : Option (Option String)
  preco_custo : Option (Option Int)
  preco_venda : Option (Option Int)
  quantidade_estoque : Option (Option Int)
  estoque_minimo : Option (Option Int)
  ativo : Option (Option Bool)
  deriving Repr, DecidableEq

/-- Transform of the presence-tracking produto fields into SET values. -/
def produtoVal {α : Type} (f : α → SqlVal) : Option α → SqlVal
  | some v => f v
  | none => SqlVal.null

/-- The `campos` list atualizar_produto builds, in the mapeamento's
iteration order. -/
def camposProduto (d : DadosAtualizaProduto) : List (String × SqlVal) :=
  optCampo "codigo_barras" (d.codigo_barras.map (produtoVal SqlVal.text)) ++
  optCampo "nome" (d.nome.map (produtoVal (fun v => SqlVal.text (pyUpper (pyTrim v))))) ++
  optCampo "descricao" (d.descricao.map (produtoVal SqlVal.text)) ++
  optCampo "categoria_id" (d.categoria_id.map (produtoVal SqlVal.int)) ++
  optCampo "fabricante" (d.fabricante.map (produtoVal SqlVal.text)) ++
  optCampo "preco_custo" (d.preco_custo.map (produtoVal SqlVal.int)) ++
  optCampo "preco_venda" (d.preco_venda.map (produtoVal SqlVal.int)) ++
  optCampo "quantidade_estoque" (d.quantidade_estoque.map (produtoVal SqlVal.int)) ++
  optCampo "estoque_minimo" (d.estoque_minimo.map (produtoVal SqlVal.int)) ++
  optCampo "ativo" (d.ativo.map (produtoVal (fun v => SqlVal.int (if v then 1 else 0))))

/-- ProdutoService.atualizar_produto. -/
def atualizar_produto (produtos : List ProdutoUpdRow) (produto_id : Nat)
    (d : DadosAtualizaProduto) : (Bool × String) × List ProdutoUpdRow :=
  match produtos.find? (fun r => r.id == produto_id) with
  | none => ((false, "Produto não encontrado"), produtos)
  | some _ =>
    let campos := camposProduto d
    if campos.isEmpty then ((false, "Nenhum dado para atualizar"), produtos)
    else
      ((true, "Produto atualizado com sucesso!"),
       produtos.map (fun r =>
         if r.id == produto_id then
           campos.foldl (fun acc cv => setProdutoCol acc cv.1 cv.2) r
         else r))

/-- Reads a `clientes` column by name, mirroring how the SET clause of
atualizar_cliente addresses columns. -/
def getClienteCol (r : ClienteRow) (col : String) : SqlVal :=
  if col = "nome" then r.nome
  else if col = "email" then r.email
  else if col = "telefone" then r.telefone
  else if col = "data_nascimento" then r.data_nascimento
  else if col = "endereco" then r.endereco
  else if col = "cidade" then r.cidade
  else if col = "estado" then r.estado
  else if col = "cep" then r.cep
  else if col = "ativo" then r.ativo
  else if col = "cpf" then r.cpf
  else SqlVal.null

/-- Reads a `produtos` column by name, mirroring how the SET clause of
atualizar_produto addresses columns. -/
def getProdutoCol (r : ProdutoUpdRow) (col : String) : SqlVal :=
  if col = "codigo_barras" then r.codigo_barras
  else if col = "nome" then r.nome
  else if col = "descricao" then r.descricao
  else if col = "categoria_id" then r.categoria_id
  else if col = "fabricante" then r.fabricante
  else if col = "preco_custo" then r.preco_custo
  else if col = "preco_venda" then r.preco_venda
  else if col = "quantidade_estoque" then r.quantidade_estoque
  else if col = "estoque_minimo" then r.estoque_minimo
  else if col = "ativo" then r.ativo
  else SqlVal.null

/-- Whether cadastrar_produto will auto-create its category: a category
name was given, no categorias row matches it exactly, and the
cadastrar_categoria call it then makes succeeds. -/
def categoriaAutoCriada (s : CatalogState) (dados : DadosProduto) (usuario : String) : Bool :=
  match dados.categoria with
  | none => false
  | some catName =>
    match s.categorias.find? (fun c => c.nome == catName) with
    | some _ => false
    | none =>
      ((cadastrar_categoria s catName
        (some ("Categoria criada automaticamente para " ++ pyUpper (pyTrim dados.nome)))
        usuario).1).1

/-! ## RFM scoring (`pages/clientes.py`, safe_rfm_scoring and
classificar_cliente) -/

/-- Rank of the element at index i under pandas `rank(method='first')`: one
plus the number of elements that are strictly smaller, or equal but earlier
in the column. -/
def rankAt (xs : List Int) (i : Nat) : Nat :=
  1 + ((Finset.range xs.length).filter (fun j =>
    xs.getD j 0 < xs.getD i 0 ∨ (xs.getD j 0 = xs.getD i 0 ∧ j < i))).card

/-- The full `rank(method='first')` column. -/
def rankFirst (xs : List Int) : List Nat :=
  (List.range xs.length).map (rankAt xs)

/-- The qcut bin (1-based, five bins) of rank r among the ranks 1..n:
`pd.qcut` interpolates the bin edges 1 + i(n-1)/5 over the ranks and places
r in the first bin whose upper edge is at least r. -/
def binOfRank (n r : Nat) : Nat :=
  if r ≤ 1 then 1 else (5 * (r - 1) + (n - 2)) / (n - 1)

/-- safe_rfm_scoring from pages/clientes.py over one metric column, embedded
over the order data the algorithm consumes (metric values as integers: only
their relative order matters to ranking).  For two or more rows `pd.qcut`
succeeds on the distinct first-method ranks and labels the bins 1..5
(ascending) or 5..1 (`reverse=True`, used for recency).  For a single row
qcut raises on duplicate bin edges and the percentile fallback runs: the
lone client's position is 1.0, giving score 1 under `reverse` and 5
otherwise. -/
def safe_rfm_scoring (metric : List Int) (reverse : Bool) : List Nat :=
  if metric.length = 1 then [if reverse then 1 else 5]
  else
    (rankFirst metric).map (fun r =>
      if reverse then 6 - binOfRank metric.length r
      else binOfRank metric.length r)

/-- classificar_cliente from pages/clientes.py: the customer class is a
function of the RFM_score column alone, which the page sets to the sum
R_score + F_score + M_score. -/
def classificar_cliente (rfm_score : Int) : String :=
  if 13 ≤ rfm_score then "🏆 CAMPEÃO"
  else if 10 ≤ rfm_score then "⭐ LEAL"
  else if 7 ≤ rfm_score then "📈 PROMISSOR"
  else if 4 ≤ rfm_score then "⚠️ EM RISCO"
  else "❌ INATIVO"

/-! ## Helper lemmas about the sale model -/

theorem totalQty_cons (it : ItemProcessado) (its : List ItemProcessado) (pid : Nat) :
    totalQty (it :: its) pid =
      (if it.produto_id = pid then it.quantidade else 0) + totalQty its pid := by
  by_cases h : it.produto_id = pid <;> simp [totalQty, h]

theorem totalQtyVenda_cons (it : ItemVenda) (its : List ItemVenda) (pid : Nat) :
    totalQtyVenda (it :: its) pid =
      (if it.produto_id = pid then it.quantidade else 0) + totalQtyVenda its pid := by
  by_cases h : it.produto_id = pid <;> simp [totalQtyVenda, h]

theorem aplicarItens_eq_map (procs : List ItemProcessado) (ps : List Produto) :
    aplicarItens ps procs = ps.map (fun p =>
      { p with quantidade_estoque := p.quantidade_estoque - totalQty procs p.id }) := by
  induction procs generalizing ps with
  | nil =>
    simp [aplicarItens, totalQty]
  | cons it its ih =>
    show aplicarItens (decrementarEstoque ps it.produto_id it.quantidade) its = _
    rw [ih, decrementarEstoque, List.map_map]
    congr 1
    funext p
    by_cases h : p.id = it.produto_id
    · simp [Function.comp, h, totalQty_cons, sub_sub]
    · have h2 : (it.produto_id = p.id) = False := by
        simp; exact fun hh => h hh.symm
      simp [Function.comp, h, totalQty_cons, h2]

theorem devolverAll_eq_map (its : List ItemVenda) (ps : List Produto) :
    its.foldl (fun acc it => devolverEstoque acc it.produto_id it.quantidade) ps =
      ps.map (fun p =>
        { p with quantidade_estoque := p.quantidade_estoque + totalQtyVenda its p.id }) := by
  induction its generalizing ps with
  | nil =>
    simp [totalQtyVenda]
  | cons it its ih =>
    show List.foldl _ (devolverEstoque ps it.produto_id it.quantidade) its = _
    rw [ih, devolverEstoque, List.map_map]
    congr 1
    funext p
    by_cases h : p.id = it.produto_id
    · simp [Function.comp, h, totalQtyVenda_cons, add_assoc]
    · have h2 : (it.produto_id = p.id) = False := by
        simp; exact fun hh => h hh.symm
      simp [Function.comp, h, totalQtyVenda_cons, h2]

theorem processarItens_ok_pid_qty {ps : List Produto} {itens : List ItemPedido}
    {procs : List ItemProcessado} {t : Int}
    (h : processarItens ps itens = .ok (procs, t)) :
    procs.map (fun it => (it.produto_id, it.quantidade)) =
      itens.map (fun i => (i.produto_id, i.quantidade)) := by
  induction itens generalizing procs t with
  | nil =>
    simp [processarItens] at h
    simp [h.1]
  | cons i rest ih =>
    unfold processarItens at h
    cases hf : findProdutoAtivo ps i.produto_id with
    | none => rw [hf] at h; exact absurd h (by simp)
    | some prod =>
      rw [hf] at h
      dsimp only at h
      by_cases hq : prod.quantidade_estoque < i.quantidade
      · rw [if_pos hq] at h; exact absurd h (by simp)
      · rw [if_neg hq] at h
        cases hr : processarItens ps rest with
        | error e => rw [hr] at h; exact absurd h (by simp)
        | ok pr =>
          obtain ⟨procs', t'⟩ := pr
          rw [hr] at h
          simp only [Except.ok.injEq, Prod.mk.injEq] at h
          obtain ⟨hp, ht⟩ := h
          subst hp
          simpa using ih hr

theorem processarItens_ok_check {ps : List Produto} {itens : List ItemPedido}
    {procs : List ItemProcessado} {t : Int}
    (h : processarItens ps itens = .ok (procs, t)) :
    ∀ it ∈ procs, ∃ p, findProdutoAtivo ps it.produto_id = some p ∧
      it.quantidade ≤ p.quantidade_estoque := by
  induction itens generalizing procs t with
  | nil =>
    simp [processarItens] at h
    simp [h.1]
  | cons i rest ih =>
    unfold processarItens at h
    cases hf : findProdutoAtivo ps i.produto_id with
    | none => rw [hf] at h; exact absurd h (by simp)
    | some prod =>
      rw [hf] at h
      dsimp only at h
      by_cases hq : prod.quantidade_estoque < i.quantidade
      · rw [if_pos hq] at h; exact absurd h (by simp)
      · rw [if_neg hq] at h
        cases hr : processarItens ps rest with
        | error e => rw [hr] at h; exact absurd h (by simp)
        | ok pr =>
          obtain ⟨procs', t'⟩ := pr
          rw [hr] at h
          simp only [Except.ok.injEq, Prod.mk.injEq] at h
          obtain ⟨hp, ht⟩ := h
          subst hp
          intro it hit
          rcases List.mem_cons.mp hit with hhead | htail
          · subst hhead
            exact ⟨prod, hf, le_of_not_lt hq⟩
          · exact ih hr it htail

theorem processarItens_error_of_bad {ps : List Produto} {itens : List ItemPedido}
    (hbad : ∃ i ∈ itens, findProdutoAtivo ps i.produto_id = none ∨
      (∃ p, findProdutoAtivo ps i.produto_id = some p ∧
        p.quantidade_estoque < i.quantidade)) :
    ∃ e, processarItens ps itens = .error e := by
  induction itens with
  | nil => simp at hbad
  | cons i rest ih =>
    obtain ⟨j, hj, hcase⟩ := hbad
    rcases List.mem_cons.mp hj with hhead | htail
    · subst hhead
      rcases hcase with hnone | ⟨p, hfind, hstock⟩
      · exact ⟨_, by unfold processarItens; rw [hnone]⟩
      · exact ⟨_, by unfold processarItens; rw [hfind]; dsimp only; rw [if_pos hstock]⟩
    · by_cases hf : ∃ prod, findProdutoAtivo ps i.produto_id = some prod ∧
        ¬(prod.quantidade_estoque < i.quantidade)
      · obtain ⟨prod, hfind, hq⟩ := hf
        obtain ⟨e, he⟩ := ih ⟨j, htail, hcase⟩
        exact ⟨e, by unfold processarItens; rw [hfind]; dsimp only; rw [if_neg hq, he]⟩
      · push_neg at hf
        cases hfi : findProdutoAtivo ps i.produto_id with
        | none => exact ⟨_, by unfold processarItens; rw [hfi]⟩
        | some prod =>
          have := hf prod hfi
          exact ⟨_, by unfold processarItens; rw [hfi]; dsimp only; rw [if_pos this]⟩

theorem totalQty_eq_zero {procs : List ItemProcessado} {pid : Nat}
    (h : ∀ it ∈ procs, it.produto_id ≠ pid) : totalQty procs pid = 0 := by
  unfold totalQty
  have : procs.filter (fun it => it.produto_id == pid) = [] := by
    apply List.filter_eq_nil_iff.mpr
    intro it hit
    simpa using h it hit
  rw [this]; rfl

theorem totalQty_eq_of_nodup {procs : List ItemProcessado}
    (hnodup : (procs.map ItemProcessado.produto_id).Nodup)
    {it : ItemProcessado} (hmem : it ∈ procs) :
    totalQty procs it.produto_id = it.quantidade := by
  induction procs with
  | nil => simp at hmem
  | cons a procs ih =>
    rw [List.map_cons, List.nodup_cons] at hnodup
    rcases List.mem_cons.mp hmem with hhead | htail
    · subst hhead
      rw [totalQty_cons, if_pos rfl, totalQty_eq_zero, add_zero]
      intro x hx hxpid
      exact hnodup.1 (hxpid ▸ List.mem_map_of_mem ItemProcessado.produto_id hx)
    · have hne : a.produto_id ≠ it.produto_id := by
        intro hh
        exact hnodup.1 (hh ▸ List.mem_map_of_mem ItemProcessado.produto_id htail)
      rw [totalQty_cons, if_neg hne, ih hnodup.2 htail, zero_add]

theorem find_produto_eq {ps : List Produto} (hids : (ps.map Produto.id).Nodup)
    {p q : Produto} (hp : p ∈ ps) {pid : Nat} (hpid : p.id = pid)
    (hq : findProdutoAtivo ps pid = some q) : q = p := by
  have hqmem : q ∈ ps := List.mem_of_find?_eq_some hq
  have hqprop := List.find?_some hq
  simp only [Bool.and_eq_true, beq_iff_eq] at hqprop
  have hqid : q.id = pid := hqprop.1
  have hinj := List.inj_on_of_nodup_map hids
  exact hinj hqmem hp (by rw [hqid, hpid])

theorem registrar_venda_eq_ok {s : VendaState} {cid : Option Nat}
    {itens : List ItemPedido} {fp u : String} {procs : List ItemProcessado} {vt : Int}
    (hne : itens.isEmpty = false)
    (hp : processarItens s.produtos itens = .ok (procs, vt)) :
    registrar_venda s cid itens fp u =
      ((true, "Venda #" ++ toString s.next_venda_id ++ " registrada com sucesso!",
        some s.next_venda_id),
       { produtos := aplicarItens s.produtos procs,
         vendas := s.vendas ++ [⟨s.next_venda_id, cid, vt, fp, u⟩],
         itens_venda := s.itens_venda ++ procs.map (fun it =>
           ItemVenda.mk s.next_venda_id it.produto_id it.quantidade
             it.preco_unitario it.promocao_id),
         next_venda_id := s.next_venda_id + 1,
         logs := s.logs + 1 }) := by
  unfold registrar_venda
  rw [hne, hp]
  rfl

theorem registrar_venda_eq_err {s : VendaState} {cid : Option Nat}
    {itens : List ItemPedido} {fp u : String} {e : String}
    (hne : itens.isEmpty = false)
    (hp : processarItens s.produtos itens = .error e) :
    registrar_venda s cid itens fp u = ((false, e, none), s) := by
  unfold registrar_venda
  rw [hne, hp]
  rfl

theorem registrar_venda_eq_empty {s : VendaState} {cid : Option Nat}
    {itens : List ItemPedido} {fp u : String} (hempty : itens.isEmpty = true) :
    registrar_venda s cid itens fp u = ((false, "Nenhum item na venda", none), s) := by
  unfold registrar_venda
  rw [hempty]
  rfl

/-- C1: the claim as frozen is false on the code.  With a single product
(id 1, stock 5, active) and a sale whose item list names product 1 twice
with quantity 5 each, registrar_venda validates both items against the same
pre-sale stock, commits the sale, and leaves the product's
quantidade_estoque at -5. -/
theorem C1_counterexample :
    (registrar_venda ⟨[⟨1, "X", 10, 5, true⟩], [], [], 1, 0⟩ none
      [⟨1, 5, some 10, none⟩, ⟨1, 5, some 10, none⟩] "PIX" "op").1.1 = true ∧
    ((registrar_venda ⟨[⟨1, "X", 10, 5, true⟩], [], [], 1, 0⟩ none
      [⟨1, 5, some 10, none⟩, ⟨1, 5, some 10, none⟩] "PIX" "op").2).produtos.map
      Produto.quantidade_estoque = [-5] := by
  constructor <;> rfl

/-- C1 (amended): each line item is validated individually against the
product's pre-sale stock, so when each produto_id appears at most once in
the itens list (and product ids are unique, as the table's primary key
guarantees), a committed sale leaves every product's quantidade_estoque
nonnegative. -/
theorem C1_registrar_venda_stock_nonneg
    (s : VendaState) (cid : Option Nat) (itens : List ItemPedido) (fp u : String)
    (hids : (s.produtos.map Produto.id).Nodup)
    (hpids : (itens.map ItemPedido.produto_id).Nodup)
    (hpos : ∀ p ∈ s.produtos, 0 ≤ p.quantidade_estoque)
    (hsucc : ((registrar_venda s cid itens fp u).1).1 = true) :
    ∀ q ∈ ((registrar_venda s cid itens fp u).2).produtos, 0 ≤ q.quantidade_estoque := by
  by_cases hempty : itens.isEmpty
  · rw [registrar_venda_eq_empty hempty] at hsucc
    exact absurd hsucc (by simp)
  · rw [Bool.not_eq_true] at hempty
    cases hp : processarItens s.produtos itens with
    | error e =>
      rw [registrar_venda_eq_err hempty hp] at hsucc
      exact absurd hsucc (by simp)
    | ok pr =>
      obtain ⟨procs, vt⟩ := pr
      rw [registrar_venda_eq_ok hempty hp]
      intro q hq
      rw [aplicarItens_eq_map] at hq
      obtain ⟨p, hpmem, rfl⟩ := List.mem_map.mp hq
      have hpq := processarItens_ok_pid_qty hp
      by_cases hex : ∃ it ∈ procs, it.produto_id = p.id
      · obtain ⟨it, hitmem, hitpid⟩ := hex
        have hprocnodup : (procs.map ItemProcessado.produto_id).Nodup := by
          have hmaps : procs.map ItemProcessado.produto_id =
              itens.map ItemPedido.produto_id := by
            have h1 : (procs.map (fun it => (it.produto_id, it.quantidade))).map
                Prod.fst = (itens.map (fun i => (i.produto_id, i.quantidade))).map
                Prod.fst := by rw [hpq]
            simpa [List.map_map, Function.comp] using h1
          rw [hmaps]; exact hpids
        have htq : totalQty procs p.id = it.quantidade := by
          rw [← hitpid]
          exact totalQty_eq_of_nodup hprocnodup hitmem
        obtain ⟨pr2, hfind, hle⟩ := processarItens_ok_check hp it hitmem
        have hpr2 : pr2 = p := by
          refine find_produto_eq hids hpmem ?_ hfind
          exact hitpid.symm
        simp only [htq]
        rw [hpr2] at hle
        omega
      · push_neg at hex
        rw [totalQty_eq_zero hex]
        simpa using hpos p hpmem

/-- Witness for C1: a concrete sale with distinct product ids is committed
and the stock row it leaves behind (product 1, stock 2) is nonnegative. -/
theorem C1_witness :
    0 ≤ (Produto.mk 1 "X" 10 2 true).quantidade_estoque := by
  exact C1_registrar_venda_stock_nonneg
    ⟨[⟨1, "X", 10, 5, true⟩, ⟨2, "Y", 7, 4, true⟩], [], [], 1, 0⟩
    none [⟨1, 3, some 10, none⟩, ⟨2, 4, none, none⟩] "PIX" "op"
    (by decide) (by decide) (by decide) (by decide)
    ⟨1, "X", 10, 2, true⟩ (by decide)

theorem totalQtyVenda_map (vid : Nat) (procs : List ItemProcessado) (pid : Nat) :
    totalQtyVenda (procs.map (fun it =>
      ItemVenda.mk vid it.produto_id it.quantidade it.preco_unitario it.promocao_id)) pid =
    totalQty procs pid := by
  induction procs with
  | nil => rfl
  | cons it its ih =>
    rw [List.map_cons, totalQtyVenda_cons, totalQty_cons, ih]

theorem estornar_venda_eq_ok {s : VendaState} {vid : Nat}
    (hfound : (s.vendas.find? (fun v => v.id == vid)).isSome)
    (hitems : (s.itens_venda.filter (fun it => it.venda_id == vid)).isEmpty = false) :
    estornar_venda s vid =
      ((true, "Venda #" ++ toString vid ++ " estornada com sucesso!"),
       { produtos := (s.itens_venda.filter (fun it => it.venda_id == vid)).foldl
           (fun acc it => devolverEstoque acc it.produto_id it.quantidade) s.produtos,
         vendas := s.vendas.filter (fun v => !(v.id == vid)),
         itens_venda := s.itens_venda.filter (fun it => !(it.venda_id == vid)),
         next_venda_id := s.next_venda_id,
         logs := s.logs + 1 }) := by
  unfold estornar_venda
  obtain ⟨v, hv⟩ := Option.isSome_iff_exists.mp hfound
  rw [hv]
  dsimp only
  rw [hitems]
  rfl

theorem map_sub_add_cancel (ps : List Produto) (f g : Nat → Int)
    (h : ∀ pid, g pid = f pid) :
    (ps.map (fun p => { p with quantidade_estoque := p.quantidade_estoque - f p.id })).map
      (fun p => { p with quantidade_estoque := p.quantidade_estoque + g p.id }) = ps := by
  rw [List.map_map]
  refine (List.map_congr_left fun p _ => ?_).trans (List.map_id ps)
  simp only [Function.comp]
  rw [h]
  have harith : p.quantidade_estoque - f p.id + f p.id = p.quantidade_estoque := by omega
  rw [harith]
  rfl

/-- C2: a successful registrar_venda followed by estornar_venda on the new
sale id succeeds and restores every product's quantidade_estoque (indeed the
whole produtos table) to its pre-sale value.  The freshness hypothesis says
no stale line item already carries the about-to-be-assigned sale id, which
the autoincrement discipline of the `vendas` table guarantees. -/
theorem C2_estorno_restores_stock
    (s : VendaState) (cid : Option Nat) (itens : List ItemPedido) (fp u msg : String)
    (vid : Nat) (s' : VendaState)
    (hfresh : ∀ it ∈ s.itens_venda, it.venda_id ≠ s.next_venda_id)
    (hreg : registrar_venda s cid itens fp u = ((true, msg, some vid), s')) :
    ((estornar_venda s' vid).1).1 = true ∧
    ((estornar_venda s' vid).2).produtos = s.produtos := by
  by_cases hempty : itens.isEmpty
  · rw [registrar_venda_eq_empty hempty] at hreg
    exact absurd hreg (by simp)
  · rw [Bool.not_eq_true] at hempty
    cases hp : processarItens s.produtos itens with
    | error e =>
      rw [registrar_venda_eq_err hempty hp] at hreg
      exact absurd hreg (by simp)
    | ok pr =>
      obtain ⟨procs, vt⟩ := pr
      rw [registrar_venda_eq_ok hempty hp] at hreg
      simp only [Prod.mk.injEq, Option.some.injEq, true_and] at hreg
      obtain ⟨⟨hmsg, hvid⟩, hs'⟩ := hreg
      subst hvid
      subst hs'
      have hlen : procs.length = itens.length := by
        have := congrArg List.length (processarItens_ok_pid_qty hp)
        simpa using this
      have hprocs_ne : procs ≠ [] := by
        intro hnil
        rw [hnil] at hlen
        cases itens with
        | nil => simp at hempty
        | cons a l => simp at hlen
      have hfilter : (s.itens_venda ++ procs.map (fun it =>
          ItemVenda.mk s.next_venda_id it.produto_id it.quantidade
            it.preco_unitario it.promocao_id)).filter
          (fun it => it.venda_id == s.next_venda_id) =
          procs.map (fun it => ItemVenda.mk s.next_venda_id it.produto_id
            it.quantidade it.preco_unitario it.promocao_id) := by
        rw [List.filter_append]
        have h1 : s.itens_venda.filter (fun it => it.venda_id == s.next_venda_id) = [] := by
          apply List.filter_eq_nil_iff.mpr
          intro it hit
          simpa using hfresh it hit
        have h2 : (procs.map (fun it => ItemVenda.mk s.next_venda_id it.produto_id
            it.quantidade it.preco_unitario it.promocao_id)).filter
            (fun it => it.venda_id == s.next_venda_id) =
            procs.map (fun it => ItemVenda.mk s.next_venda_id it.produto_id
              it.quantidade it.preco_unitario it.promocao_id) := by
          apply List.filter_eq_self.mpr
          intro it hit
          obtain ⟨x, hx, rfl⟩ := List.mem_map.mp hit
          simp
        rw [h1, h2, List.nil_append]
      have hfound : ((s.vendas ++ [(⟨s.next_venda_id, cid, vt, fp, u⟩ : Venda)]).find?
          (fun v => v.id == s.next_venda_id)).isSome := by
        rw [List.find?_isSome]
        exact ⟨⟨s.next_venda_id, cid, vt, fp, u⟩, by simp, by simp⟩
      have hne2 : (((s.itens_venda ++ procs.map (fun it =>
          ItemVenda.mk s.next_venda_id it.produto_id it.quantidade
            it.preco_unitario it.promocao_id))).filter
          (fun it => it.venda_id == s.next_venda_id)).isEmpty = false := by
        rw [hfilter]
        cases hpr : procs with
        | nil => exact absurd hpr hprocs_ne
        | cons a l => rfl
      rw [estornar_venda_eq_ok hfound hne2]
      refine ⟨rfl, ?_⟩
      show ((s.itens_venda ++ procs.map (fun it =>
          ItemVenda.mk s.next_venda_id it.produto_id it.quantidade
            it.preco_unitario it.promocao_id)).filter
          (fun it => it.venda_id == s.next_venda_id)).foldl
          (fun acc it => devolverEstoque acc it.produto_id it.quantidade)
          (aplicarItens s.produtos procs) = s.produtos
      rw [hfilter, devolverAll_eq_map, aplicarItens_eq_map]
      exact map_sub_add_cancel s.produtos (fun pid => totalQty procs pid)
        (fun pid => totalQtyVenda (procs.map (fun it => ItemVenda.mk s.next_venda_id
          it.produto_id it.quantidade it.preco_unitario it.promocao_id)) pid)
        (fun pid => totalQtyVenda_map s.next_venda_id procs pid)

/-- Witness for C2: a concrete one-item sale is registered and reversed; the
product's stock returns to its initial value. -/
theorem C2_witness :
    ((estornar_venda ⟨[⟨1, "X", 10, 3, true⟩], [⟨1, none, 20, "PIX", "op"⟩],
        [⟨1, 1, 2, 10, none⟩], 2, 1⟩ 1).1).1 = true ∧
    ((estornar_venda ⟨[⟨1, "X", 10, 3, true⟩], [⟨1, none, 20, "PIX", "op"⟩],
        [⟨1, 1, 2, 10, none⟩], 2, 1⟩ 1).2).produtos =
      ([⟨1, "X", 10, 5, true⟩] : List Produto) := by
  exact C2_estorno_restores_stock ⟨[⟨1, "X", 10, 5, true⟩], [], [], 1, 0⟩ none
    [⟨1, 2, some 10, none⟩] "PIX" "op" "Venda #1 registrada com sucesso!" 1
    ⟨[⟨1, "X", 10, 3, true⟩], [⟨1, none, 20, "PIX", "op"⟩], [⟨1, 1, 2, 10, none⟩], 2, 1⟩
    (by decide) (by decide)

/-- C3: registrar_venda validates before mutating.  Any failure (empty item
list, missing or inactive product, or an item quantity above that product's
stock) returns (False, message, no sale id) and leaves the produtos, vendas
and itens_venda tables untouched; on success exactly one sale row and its
line items are appended and each item's quantity is subtracted from its
product's stock. -/
theorem C3_registrar_venda_error_handling
    (s : VendaState) (cid : Option Nat) (itens : List ItemPedido) (fp u : String) :
    (((registrar_venda s cid itens fp u).1).1 = false →
      (registrar_venda s cid itens fp u).2 = s ∧
      ((registrar_venda s cid itens fp u).1).2.2 = none) ∧
    (itens = [] → ((registrar_venda s cid itens fp u).1).1 = false) ∧
    ((∃ i ∈ itens, findProdutoAtivo s.produtos i.produto_id = none) →
      ((registrar_venda s cid itens fp u).1).1 = false) ∧
    ((∃ i ∈ itens, ∃ p, findProdutoAtivo s.produtos i.produto_id = some p ∧
        p.quantidade_estoque < i.quantidade) →
      ((registrar_venda s cid itens fp u).1).1 = false) ∧
    (((registrar_venda s cid itens fp u).1).1 = true →
      ∃ procs vt, processarItens s.produtos itens = .ok (procs, vt) ∧
        (registrar_venda s cid itens fp u).2 =
          { produtos := s.produtos.map (fun p =>
              { p with quantidade_estoque := p.quantidade_estoque - totalQty procs p.id }),
            vendas := s.vendas ++ [⟨s.next_venda_id, cid, vt, fp, u⟩],
            itens_venda := s.itens_venda ++ procs.map (fun it =>
              ItemVenda.mk s.next_venda_id it.produto_id it.quantidade
                it.preco_unitario it.promocao_id),
            next_venda_id := s.next_venda_id + 1,
            logs := s.logs + 1 }) := by
  by_cases hempty : itens.isEmpty
  · rw [registrar_venda_eq_empty hempty]
    exact ⟨fun _ => ⟨rfl, rfl⟩, fun _ => rfl, fun _ => rfl, fun _ => rfl,
      fun h => by simp at h⟩
  · rw [Bool.not_eq_true] at hempty
    cases hp : processarItens s.produtos itens with
    | error e =>
      rw [registrar_venda_eq_err hempty hp]
      refine ⟨fun _ => ⟨rfl, rfl⟩, ?_, fun _ => rfl, fun _ => rfl, fun h => by simp at h⟩
      intro hh
      subst hh
      simp at hempty
    | ok pr =>
      obtain ⟨procs, vt⟩ := pr
      rw [registrar_venda_eq_ok hempty hp]
      refine ⟨fun h => by simp at h, ?_, ?_, ?_, ?_⟩
      · intro hh
        subst hh
        simp at hempty
      · intro hbad
        obtain ⟨e, he⟩ := processarItens_error_of_bad
          (hbad.imp fun i hi => ⟨hi.1, Or.inl hi.2⟩)
        rw [hp] at he
        exact absurd he (by simp)
      · intro hbad
        obtain ⟨e, he⟩ := processarItens_error_of_bad
          (hbad.imp fun i hi => ⟨hi.1, Or.inr hi.2⟩)
        rw [hp] at he
        exact absurd he (by simp)
      · intro _
        exact ⟨procs, vt, rfl, by rw [aplicarItens_eq_map]⟩

/-- Witness for C3: the empty-item call fails and leaves the state exactly
as it was. -/
theorem C3_witness :
    (registrar_venda ⟨[⟨1, "X", 10, 5, true⟩], [], [], 1, 0⟩ none [] "PIX" "op").2 =
      (⟨[⟨1, "X", 10, 5, true⟩], [], [], 1, 0⟩ : VendaState) ∧
    ((registrar_venda ⟨[⟨1, "X", 10, 5, true⟩], [], [], 1, 0⟩ none [] "PIX" "op").1).2.2 =
      none := by
  exact (C3_registrar_venda_error_handling ⟨[⟨1, "X", 10, 5, true⟩], [], [], 1, 0⟩
      none [] "PIX" "op").1
    ((C3_registrar_venda_error_handling ⟨[⟨1, "X", 10, 5, true⟩], [], [], 1, 0⟩
      none [] "PIX" "op").2.1 rfl)

theorem cadastrar_individual_fails (cleanCpf : String → String)
    (validarCpf : String → Bool) (parseDate : String → Option String)
    (s : ClienteState) (dados : DadosCliente) (usuario : String) :
    ((cadastrar_individual cleanCpf validarCpf parseDate s dados usuario).1).1 = false ∧
    (cadastrar_individual cleanCpf validarCpf parseDate s dados usuario).2 = s := by
  unfold cadastrar_individual
  by_cases h1 : pyUpper (pyTrim dados.nome) = ""
  · rw [if_pos h1]
    exact ⟨rfl, rfl⟩
  · rw [if_neg h1]
    cases hc : dados.cpf with
    | none => exact ⟨rfl, rfl⟩
    | some c =>
      dsimp only
      cases hv : validarCpf (cleanCpf c) with
      | false => exact ⟨rfl, rfl⟩
      | true =>
        cases ha : s.clientes.any (fun r => r.cpf == some (cleanCpf c)) with
        | false => exact ⟨rfl, rfl⟩
        | true => exact ⟨rfl, rfl⟩

/-- C4: against the schema that Database.init_schema creates (whose
`clientes` table defines no `ativo` column), every cadastrar_individual call
returns failure and inserts no row, whatever the input and whatever the CPF
validator does: each validation path fails early, and the INSERT path names
the nonexistent `ativo` column, so the statement errors and the handler
returns (False, message) with the table unchanged. -/
theorem C4_cadastrar_individual_always_fails
    (cleanCpf : String → String) (validarCpf : String → Bool)
    (parseDate : String → Option String) (s : ClienteState)
    (dados : DadosCliente) (usuario : String) :
    ((cadastrar_individual cleanCpf validarCpf parseDate s dados usuario).1).1 = false ∧
    (cadastrar_individual cleanCpf validarCpf parseDate s dados usuario).2 = s :=
  cadastrar_individual_fails cleanCpf validarCpf parseDate s dados usuario

/-- C5: verificar_permissoes implements the three-tier ordering
ADMIN > OPERADOR > VISUALIZADOR: it grants exactly when the user level is
ADMIN, or is OPERADOR with a needed level of OPERADOR or VISUALIZADOR, or is
VISUALIZADOR with a needed level of VISUALIZADOR; every other user level is
denied. -/
theorem C5_verificar_permissoes_ordering (u n : String) :
    verificar_permissoes u n = true ↔
      (u = "ADMIN" ∨
       (u = "OPERADOR" ∧ (n = "OPERADOR" ∨ n = "VISUALIZADOR")) ∨
       (u = "VISUALIZADOR" ∧ n = "VISUALIZADOR")) := by
  unfold verificar_permissoes
  by_cases h1 : u = "ADMIN"
  · simp [h1]
  · rw [if_neg h1]
    by_cases h2 : u = "OPERADOR"
    · simp [h1, h2]
    · rw [if_neg h2]
      by_cases h3 : u = "VISUALIZADOR"
      · simp [h1, h2, h3]
      · simp [h1, h2, h3]

/-- C6: hard deletion is guarded by a dependency check that leaves state
unchanged on refusal: excluir_categoria refuses (and changes nothing) while
some active product references the category, and excluir_promocao refuses
while some sale line item references the promotion; with no dependents the
row is removed from its table (and, for categories, the produtos table is
untouched either way). -/
theorem C6_exclusao_dependency_guard
    (s : CatalogState) (cid : Nat) (u1 : String)
    (sp : PromocaoState) (pid : Nat) (u2 : String) :
    ((∃ p ∈ s.produtos, p.categoria_id = some cid ∧ p.ativo = true) →
      ((excluir_categoria s cid u1).1).1 = false ∧ (excluir_categoria s cid u1).2 = s) ∧
    ((∀ p ∈ s.produtos, ¬(p.categoria_id = some cid ∧ p.ativo = true)) →
      ((excluir_categoria s cid u1).1).1 = true ∧
      ((excluir_categoria s cid u1).2).categorias =
        s.categorias.filter (fun c => !(c.id == cid)) ∧
      ((excluir_categoria s cid u1).2).produtos = s.produtos) ∧
    ((∃ it ∈ sp.itens_venda, it.promocao_id = some pid) →
      ((excluir_promocao sp pid u2).1).1 = false ∧ (excluir_promocao sp pid u2).2 = sp) ∧
    ((∀ it ∈ sp.itens_venda, ¬it.promocao_id = some pid) →
      ((excluir_promocao sp pid u2).1).1 = true ∧
      ((excluir_promocao sp pid u2).2).promocoes =
        sp.promocoes.filter (fun pr => !(pr.id == pid))) := by
  unfold excluir_categoria excluir_promocao
  refine ⟨?_, ?_, ?_, ?_⟩
  · rintro ⟨p, hp, h1, h2⟩
    rw [if_pos]
    · exact ⟨rfl, rfl⟩
    · have : p ∈ s.produtos.filter (fun p => p.categoria_id == some cid && p.ativo) :=
        List.mem_filter.mpr ⟨hp, by simp [h1, h2]⟩
      calc 0 < 1 := Nat.zero_lt_one
        _ ≤ _ := List.length_pos_of_mem this
  · intro hall
    have hnil : s.produtos.filter (fun p => p.categoria_id == some cid && p.ativo) = [] :=
      List.filter_eq_nil_iff.mpr (fun p hp => by simpa using hall p hp)
    rw [hnil]
    exact ⟨rfl, rfl, rfl⟩
  · rintro ⟨it, hit, h1⟩
    rw [if_pos]
    · exact ⟨rfl, rfl⟩
    · have : it ∈ sp.itens_venda.filter (fun it => it.promocao_id == some pid) :=
        List.mem_filter.mpr ⟨hit, by simp [h1]⟩
      calc 0 < 1 := Nat.zero_lt_one
        _ ≤ _ := List.length_pos_of_mem this
  · intro hall
    have hnil : sp.itens_venda.filter (fun it => it.promocao_id == some pid) = [] :=
      List.filter_eq_nil_iff.mpr (fun it hit => by simpa using hall it hit)
    rw [hnil]
    exact ⟨rfl, rfl⟩

/-- Witness for C6: a category with one active dependent product is refused,
with the state unchanged. -/
theorem C6_witness :
    ((excluir_categoria ⟨[⟨1, "CAT", none, 1⟩],
        [⟨1, none, "P", some 1, none, none, 10, 0, 5, true, "op"⟩], 2, 2, 0⟩ 1 "op").1).1 =
      false ∧
    (excluir_categoria ⟨[⟨1, "CAT", none, 1⟩],
        [⟨1, none, "P", some 1, none, none, 10, 0, 5, true, "op"⟩], 2, 2, 0⟩ 1 "op").2 =
      (⟨[⟨1, "CAT", none, 1⟩],
        [⟨1, none, "P", some 1, none, none, 10, 0, 5, true, "op"⟩], 2, 2, 0⟩ : CatalogState) := by
  exact (C6_exclusao_dependency_guard ⟨[⟨1, "CAT", none, 1⟩],
      [⟨1, none, "P", some 1, none, none, 10, 0, 5, true, "op"⟩], 2, 2, 0⟩ 1 "op"
      ⟨[], [], 1, 0⟩ 1 "op").1 (by decide)

/-- C7: the claim's freshness half fails on the code.  read_sql compares
`(datetime.now() - cached_time).seconds` — the seconds-within-day component,
which wraps every 24 hours — against the TTL, so an entry exactly one day
old (86400 seconds, far beyond the 300-second TTL) is served from the cache
instead of being re-queried: with the cached value 7 and a fresh query value
9, the call returns 7 and leaves the stale entry in place. -/
theorem C7_cache_serves_expired_entry :
    read_sql_cached [("q", ⟨0, 7⟩)] "q" 86400 DEFAULT_TTL 9 = (7, [("q", ⟨0, 7⟩)]) ∧
    DEFAULT_TTL ≤ 86400 - 0 := by
  exact ⟨rfl, by decide⟩

/-! ## Helper lemmas for the partial-update model -/

theorem optCampo_mem {cv : String × SqlVal} {col : String} {o : Option SqlVal}
    (h : cv ∈ optCampo col o) : cv.1 = col ∧ o.isSome = true := by
  cases o with
  | none => simp [optCampo] at h
  | some v =>
    simp [optCampo] at h
    rw [h]
    exact ⟨rfl, rfl⟩

theorem optCampo_map_mem {cv : String × SqlVal} {col : String} {α : Type}
    {f : α → SqlVal} {o : Option α} (h : cv ∈ optCampo col (o.map f)) :
    cv.1 = col ∧ o.isSome = true := by
  cases o with
  | none => simp [optCampo] at h
  | some v => exact ⟨(optCampo_mem h).1, rfl⟩

theorem camposCliente_mem_col {pd : String → Option String}
    {d : DadosAtualizaCliente} {cv : String × SqlVal}
    (h : cv ∈ camposCliente pd d) :
    (cv.1 = "nome" ∧ d.nome.isSome) ∨ (cv.1 = "email" ∧ d.email.isSome) ∨
    (cv.1 = "telefone" ∧ d.telefone.isSome) ∨
    (cv.1 = "data_nascimento" ∧ d.data_nascimento.isSome) ∨
    (cv.1 = "endereco" ∧ d.endereco.isSome) ∨ (cv.1 = "cidade" ∧ d.cidade.isSome) ∨
    (cv.1 = "estado" ∧ d.estado.isSome) ∨ (cv.1 = "cep" ∧ d.cep.isSome) ∨
    (cv.1 = "ativo" ∧ d.ativo.isSome) := by
  unfold camposCliente at h
  rcases List.mem_append.mp h with h | h
  swap
  · exact Or.inr (Or.inr (Or.inr (Or.inr (Or.inr (Or.inr (Or.inr (Or.inr (optCampo_map_mem h))))))))
  rcases List.mem_append.mp h with h | h
  swap
  · exact Or.inr (Or.inr (Or.inr (Or.inr (Or.inr (Or.inr (Or.inr (Or.inl (optCampo_map_mem h))))))))
  rcases List.mem_append.mp h with h | h
  swap
  · exact Or.inr (Or.inr (Or.inr (Or.inr (Or.inr (Or.inr (Or.inl (optCampo_map_mem h)))))))
  rcases List.mem_append.mp h with h | h
  swap
  · exact Or.inr (Or.inr (Or.inr (Or.inr (Or.inr (Or.inl (optCampo_map_mem h))))))
  rcases List.mem_append.mp h with h | h
  swap
  · exact Or.inr (Or.inr (Or.inr (Or.inr (Or.inl (optCampo_map_mem h)))))
  rcases List.mem_append.mp h with h | h
  swap
  · exact Or.inr (Or.inr (Or.inr (Or.inl (optCampo_map_mem h))))
  rcases List.mem_append.mp h with h | h
  swap
  · exact Or.inr (Or.inr (Or.inl (optCampo_map_mem h)))
  rcases List.mem_append.mp h with h | h
  swap
  · exact Or.inr (Or.inl (optCampo_map_mem h))
  exact Or.inl (optCampo_map_mem h)

theorem camposCliente_ne (pd : String → Option String) (d : DadosAtualizaCliente)
    (col : String)
    (hno : ¬((col = "nome" ∧ d.nome.isSome) ∨ (col = "email" ∧ d.email.isSome) ∨
      (col = "telefone" ∧ d.telefone.isSome) ∨
      (col = "data_nascimento" ∧ d.data_nascimento.isSome) ∨
      (col = "endereco" ∧ d.endereco.isSome) ∨ (col = "cidade" ∧ d.cidade.isSome) ∨
      (col = "estado" ∧ d.estado.isSome) ∨ (col = "cep" ∧ d.cep.isSome) ∨
      (col = "ativo" ∧ d.ativo.isSome))) :
    ∀ cv ∈ camposCliente pd d, cv.1 ≠ col := by
  intro cv hcv hceq
  exact hno (hceq ▸ camposCliente_mem_col hcv)

theorem setClienteCol_nome (r : ClienteRow) (col : String) (v : SqlVal)
    (h : col ≠ "nome") : (setClienteCol r col v).nome = r.nome := by
  unfold setClienteCol
  split_ifs <;> first | rfl | exact absurd ‹col = "nome"› h

theorem setClienteCol_email (r : ClienteRow) (col : String) (v : SqlVal)
    (h : col ≠ "email") : (setClienteCol r col v).email = r.email := by
  unfold setClienteCol
  split_ifs <;> first | rfl | exact absurd ‹col = "email"› h

theorem setClienteCol_telefone (r : ClienteRow) (col : String) (v : SqlVal)
    (h : col ≠ "telefone") : (setClienteCol r col v).telefone = r.telefone := by
  unfold setClienteCol
  split_ifs <;> first | rfl | exact absurd ‹col = "telefone"› h

theorem setClienteCol_data_nascimento (r : ClienteRow) (col : String) (v : SqlVal)
    (h : col ≠ "data_nascimento") : (setClienteCol r col v).data_nascimento = r.data_nascimento := by
  unfold setClienteCol
  split_ifs <;> first | rfl | exact absurd ‹col = "data_nascimento"› h

theorem setClienteCol_endereco (r : ClienteRow) (col : String) (v : SqlVal)
    (h : col ≠ "endereco") : (setClienteCol r col v).endereco = r.endereco := by
  unfold setClienteCol
  split_ifs <;> first | rfl | exact absurd ‹col = "endereco"› h

theorem setClienteCol_cidade (r : ClienteRow) (col : String) (v : SqlVal)
    (h : col ≠ "cidade") : (setClienteCol r col v).cidade = r.cidade := by
  unfold setClienteCol
  split_ifs <;> first | rfl | exact absurd ‹col = "cidade"› h

theorem setClienteCol_estado (r : ClienteRow) (col : String) (v : SqlVal)
    (h : col ≠ "estado") : (setClienteCol r col v).estado = r.estado := by
  unfold setClienteCol
  split_ifs <;> first | rfl | exact absurd ‹col = "estado"› h

theorem setClienteCol_cep (r : ClienteRow) (col : String) (v : SqlVal)
    (h : col ≠ "cep") : (setClienteCol r col v).cep = r.cep := by
  unfold setClienteCol
  split_ifs <;> first | rfl | exact absurd ‹col = "cep"› h

theorem setClienteCol_ativo (r : ClienteRow) (col : String) (v : SqlVal)
    (h : col ≠ "ativo") : (setClienteCol r col v).ativo = r.ativo := by
  unfold setClienteCol
  split_ifs <;> first | rfl | exact absurd ‹col = "ativo"› h

theorem setClienteCol_cpf (r : ClienteRow) (col : String) (v : SqlVal) :
    (setClienteCol r col v).cpf = r.cpf := by
  unfold setClienteCol
  split_ifs <;> rfl

theorem getClienteCol_set_ne (r : ClienteRow) (col : String) (v : SqlVal)
    (col' : String) (h : col' ≠ col) :
    getClienteCol (setClienteCol r col v) col' = getClienteCol r col' := by
  by_cases h1 : col' = "nome"
  · subst h1
    show (setClienteCol r col v).nome = r.nome
    exact setClienteCol_nome r col v (fun hc => h hc.symm)
  by_cases h2 : col' = "email"
  · subst h2
    show (setClienteCol r col v).email = r.email
    exact setClienteCol_email r col v (fun hc => h hc.symm)
  by_cases h3 : col' = "telefone"
  · subst h3
    show (setClienteCol r col v).telefone = r.telefone
    exact setClienteCol_telefone r col v (fun hc => h hc.symm)
  by_cases h4 : col' = "data_nascimento"
  · subst h4
    show (setClienteCol r col v).data_nascimento = r.data_nascimento
    exact setClienteCol_data_nascimento r col v (fun hc => h hc.symm)
  by_cases h5 : col' = "endereco"
  · subst h5
    show (setClienteCol r col v).endereco = r.endereco
    exact setClienteCol_endereco r col v (fun hc => h hc.symm)
  by_cases h6 : col' = "cidade"
  · subst h6
    show (setClienteCol r col v).cidade = r.cidade
    exact setClienteCol_cidade r col v (fun hc => h hc.symm)
  by_cases h7 : col' = "estado"
  · subst h7
    show (setClienteCol r col v).estado = r.estado
    exact setClienteCol_estado r col v (fun hc => h hc.symm)
  by_cases h8 : col' = "cep"
  · subst h8
    show (setClienteCol r col v).cep = r.cep
    exact setClienteCol_cep r col v (fun hc => h hc.symm)
  by_cases h9 : col' = "ativo"
  · subst h9
    show (setClienteCol r col v).ativo = r.ativo
    exact setClienteCol_ativo r col v (fun hc => h hc.symm)
  by_cases h10 : col' = "cpf"
  · subst h10
    show (setClienteCol r col v).cpf = r.cpf
    exact setClienteCol_cpf r col v
  unfold getClienteCol
  simp only [if_neg h1, if_neg h2, if_neg h3, if_neg h4, if_neg h5, if_neg h6, if_neg h7, if_neg h8, if_neg h9, if_neg h10]

theorem setClienteCol_id (r : ClienteRow) (col : String) (v : SqlVal) :
    (setClienteCol r col v).id = r.id := by
  unfold setClienteCol
  split_ifs <;> rfl

theorem foldl_setClienteCol_id (assigns : List (String × SqlVal)) (r : ClienteRow) :
    (assigns.foldl (fun acc cv => setClienteCol acc cv.1 cv.2) r).id = r.id := by
  induction assigns generalizing r with
  | nil => rfl
  | cons cv tail ih =>
    rw [List.foldl_cons, ih]
    exact setClienteCol_id r cv.1 cv.2

theorem getClienteCol_foldl_ne (assigns : List (String × SqlVal)) (r : ClienteRow)
    (col' : String) (h : ∀ cv ∈ assigns, cv.1 ≠ col') :
    getClienteCol (assigns.foldl (fun acc cv => setClienteCol acc cv.1 cv.2) r) col' =
      getClienteCol r col' := by
  induction assigns generalizing r with
  | nil => rfl
  | cons cv tail ih =>
    rw [List.foldl_cons, ih _ (fun x hx => h x (List.mem_cons_of_mem _ hx))]
    exact getClienteCol_set_ne r cv.1 cv.2 col'
      (fun hh => h cv (List.mem_cons_self _ _) hh.symm)

theorem camposProduto_mem_col {d : DadosAtualizaProduto} {cv : String × SqlVal}
    (h : cv ∈ camposProduto d) :
    (cv.1 = "codigo_barras" ∧ d.codigo_barras.isSome) ∨
    (cv.1 = "nome" ∧ d.nome.isSome) ∨
    (cv.1 = "descricao" ∧ d.descricao.isSome) ∨
    (cv.1 = "categoria_id" ∧ d.categoria_id.isSome) ∨
    (cv.1 = "fabricante" ∧ d.fabricante.isSome) ∨
    (cv.1 = "preco_custo" ∧ d.preco_custo.isSome) ∨
    (cv.1 = "preco_venda" ∧ d.preco_venda.isSome) ∨
    (cv.1 = "quantidade_estoque" ∧ d.quantidade_estoque.isSome) ∨
    (cv.1 = "estoque_minimo" ∧ d.estoque_minimo.isSome) ∨
    (cv.1 = "ativo" ∧ d.ativo.isSome) := by
  unfold camposProduto at h
  rcases List.mem_append.mp h with h | h
  swap
  · exact Or.inr (Or.inr (Or.inr (Or.inr (Or.inr (Or.inr (Or.inr (Or.inr (Or.inr (optCampo_map_mem h)))))))))
  rcases List.mem_append.mp h with h | h
  swap
  · exact Or.inr (Or.inr (Or.inr (Or.inr (Or.inr (Or.inr (Or.inr (Or.inr (Or.inl (optCampo_map_mem h)))))))))
  rcases List.mem_append.mp h with h | h
  swap
  · exact Or.inr (Or.inr (Or.inr (Or.inr (Or.inr (Or.inr (Or.inr (Or.inl (optCampo_map_mem h))))))))
  rcases List.mem_append.mp h with h | h
  swap
  · exact Or.inr (Or.inr (Or.inr (Or.inr (Or.inr (Or.inr (Or.inl (optCampo_map_mem h)))))))
  rcases List.mem_append.mp h with h | h
  swap
  · exact Or.inr (Or.inr (Or.inr (Or.inr (Or.inr (Or.inl (optCampo_map_mem h))))))
  rcases List.mem_append.mp h with h | h
  swap
  · exact Or.inr (Or.inr (Or.inr (Or.inr (Or.inl (optCampo_map_mem h)))))
  rcases List.mem_append.mp h with h | h
  swap
  · exact Or.inr (Or.inr (Or.inr (Or.inl (optCampo_map_mem h))))
  rcases List.mem_append.mp h with h | h
  swap
  · exact Or.inr (Or.inr (Or.inl (optCampo_map_mem h)))
  rcases List.mem_append.mp h with h | h
  swap
  · exact Or.inr (Or.inl (optCampo_map_mem h))
  exact Or.inl (optCampo_map_mem h)

theorem camposProduto_ne (d : DadosAtualizaProduto) (col : String)
    (hno : ¬((col = "codigo_barras" ∧ d.codigo_barras.isSome) ∨
      (col = "nome" ∧ d.nome.isSome) ∨
      (col = "descricao" ∧ d.descricao.isSome) ∨
      (col = "categoria_id" ∧ d.categoria_id.isSome) ∨
      (col = "fabricante" ∧ d.fabricante.isSome) ∨
      (col = "preco_custo" ∧ d.preco_custo.isSome) ∨
      (col = "preco_venda" ∧ d.preco_venda.isSome) ∨
      (col = "quantidade_estoque" ∧ d.quantidade_estoque.isSome) ∨
      (col = "estoque_minimo" ∧ d.estoque_minimo.isSome) ∨
      (col = "ativo" ∧ d.ativo.isSome))) :
    ∀ cv ∈ camposProduto d, cv.1 ≠ col := by
  intro cv hcv hceq
  exact hno (hceq ▸ camposProduto_mem_col hcv)

theorem setProdutoCol_codigo_barras (r : ProdutoUpdRow) (col : String) (v : SqlVal)
    (h : col ≠ "codigo_barras") : (setProdutoCol r col v).codigo_barras = r.codigo_barras := by
  unfold setProdutoCol
  split_ifs <;> first | rfl | exact absurd ‹col = "codigo_barras"› h

theorem setProdutoCol_nome (r : ProdutoUpdRow) (col : String) (v : SqlVal)
    (h : col ≠ "nome") : (setProdutoCol r col v).nome = r.nome := by
  unfold setProdutoCol
  split_ifs <;> first | rfl | exact absurd ‹col = "nome"› h

theorem setProdutoCol_descricao (r : ProdutoUpdRow) (col : String) (v : SqlVal)
    (h : col ≠ "descricao") : (setProdutoCol r col v).descricao = r.descricao := by
  unfold setProdutoCol
  split_ifs <;> first | rfl | exact absurd ‹col = "descricao"› h

theorem setProdutoCol_categoria_id (r : ProdutoUpdRow) (col : String) (v : SqlVal)
    (h : col ≠ "categoria_id") : (setProdutoCol r col v).categoria_id = r.categoria_id := by
  unfold setProdutoCol
  split_ifs <;> first | rfl | exact absurd ‹col = "categoria_id"› h

theorem setProdutoCol_fabricante (r : ProdutoUpdRow) (col : String) (v : SqlVal)
    (h : col ≠ "fabricante") : (setProdutoCol r col v).fabricante = r.fabricante := by
  unfold setProdutoCol
  split_ifs <;> first | rfl | exact absurd ‹col = "fabricante"› h

theorem setProdutoCol_preco_custo (r : ProdutoUpdRow) (col : String) (v : SqlVal)
    (h : col ≠ "preco_custo") : (setProdutoCol r col v).preco_custo = r.preco_custo := by
  unfold setProdutoCol
  split_ifs <;> first | rfl | exact absurd ‹col = "preco_custo"› h

theorem setProdutoCol_preco_venda (r : ProdutoUpdRow) (col : String) (v : SqlVal)
    (h : col ≠ "preco_venda") : (setProdutoCol r col v).preco_venda = r.preco_venda := by
  unfold setProdutoCol
  split_ifs <;> first | rfl | exact absurd ‹col = "preco_venda"› h

theorem setProdutoCol_quantidade_estoque (r : ProdutoUpdRow) (col : String) (v : SqlVal)
    (h : col ≠ "quantidade_estoque") : (setProdutoCol r col v).quantidade_estoque = r.quantidade_estoque := by
  unfold setProdutoCol
  split_ifs <;> first | rfl | exact absurd ‹col = "quantidade_estoque"› h

theorem setProdutoCol_estoque_minimo (r : ProdutoUpdRow) (col : String) (v : SqlVal)
    (h : col ≠ "estoque_minimo") : (setProdutoCol r col v).estoque_minimo = r.estoque_minimo := by
  unfold setProdutoCol
  split_ifs <;> first | rfl | exact absurd ‹col = "estoque_minimo"› h

theorem setProdutoCol_ativo (r : ProdutoUpdRow) (col : String) (v : SqlVal)
    (h : col ≠ "ativo") : (setProdutoCol r col v).ativo = r.ativo := by
  unfold setProdutoCol
  split_ifs <;> first | rfl | exact absurd ‹col = "ativo"› h

theorem getProdutoCol_set_ne (r : ProdutoUpdRow) (col : String) (v : SqlVal)
    (col' : String) (h : col' ≠ col) :
    getProdutoCol (setProdutoCol r col v) col' = getProdutoCol r col' := by
  by_cases h1 : col' = "codigo_barras"
  · subst h1
    show (setProdutoCol r col v).codigo_barras = r.codigo_barras
    exact setProdutoCol_codigo_barras r col v (fun hc => h hc.symm)
  by_cases h2 : col' = "nome"
  · subst h2
    show (setProdutoCol r col v).nome = r.nome
    exact setProdutoCol_nome r col v (fun hc => h hc.symm)
  by_cases h3 : col' = "descricao"
  · subst h3
    show (setProdutoCol r col v).descricao = r.descricao
    exact setProdutoCol_descricao r col v (fun hc => h hc.symm)
  by_cases h4 : col' = "categoria_id"
  · subst h4
    show (setProdutoCol r col v).categoria_id = r.categoria_id
    exact setProdutoCol_categoria_id r col v (fun hc => h hc.symm)
  by_cases h5 : col' = "fabricante"
  · subst h5
    show (setProdutoCol r col v).fabricante = r.fabricante
    exact setProdutoCol_fabricante r col v (fun hc => h hc.symm)
  by_cases h6 : col' = "preco_custo"
  · subst h6
    show (setProdutoCol r col v).preco_custo = r.preco_custo
    exact setProdutoCol_preco_custo r col v (fun hc => h hc.symm)
  by_cases h7 : col' = "preco_venda"
  · subst h7
    show (setProdutoCol r col v).preco_venda = r.preco_venda
    exact setProdutoCol_preco_venda r col v (fun hc => h hc.symm)
  by_cases h8 : col' = "quantidade_estoque"
  · subst h8
    show (setProdutoCol r col v).quantidade_estoque = r.quantidade_estoque
    exact setProdutoCol_quantidade_estoque r col v (fun hc => h hc.symm)
  by_cases h9 : col' = "estoque_minimo"
  · subst h9
    show (setProdutoCol r col v).estoque_minimo = r.estoque_minimo
    exact setProdutoCol_estoque_minimo r col v (fun hc => h hc.symm)
  by_cases h10 : col' = "ativo"
  · subst h10
    show (setProdutoCol r col v).ativo = r.ativo
    exact setProdutoCol_ativo r col v (fun hc => h hc.symm)
  unfold getProdutoCol
  simp only [if_neg h1, if_neg h2, if_neg h3, if_neg h4, if_neg h5, if_neg h6, if_neg h7, if_neg h8, if_neg h9, if_neg h10]

theorem setProdutoCol_id (r : ProdutoUpdRow) (col : String) (v : SqlVal) :
    (setProdutoCol r col v).id = r.id := by
  unfold setProdutoCol
  split_ifs <;> rfl

theorem foldl_setProdutoCol_id (assigns : List (String × SqlVal)) (r : ProdutoUpdRow) :
    (assigns.foldl (fun acc cv => setProdutoCol acc cv.1 cv.2) r).id = r.id := by
  induction assigns generalizing r with
  | nil => rfl
  | cons cv tail ih =>
    rw [List.foldl_cons, ih]
    exact setProdutoCol_id r cv.1 cv.2

theorem getProdutoCol_foldl_ne (assigns : List (String × SqlVal)) (r : ProdutoUpdRow)
    (col' : String) (h : ∀ cv ∈ assigns, cv.1 ≠ col') :
    getProdutoCol (assigns.foldl (fun acc cv => setProdutoCol acc cv.1 cv.2) r) col' =
      getProdutoCol r col' := by
  induction assigns generalizing r with
  | nil => rfl
  | cons cv tail ih =>
    rw [List.foldl_cons, ih _ (fun x hx => h x (List.mem_cons_of_mem _ hx))]
    exact getProdutoCol_set_ne r cv.1 cv.2 col'
      (fun hh => h cv (List.mem_cons_self _ _) hh.symm)

theorem atualizar_cliente_eq_notfound {pd : String → Option String}
    {cs : List ClienteRow} {cid : Nat} {d : DadosAtualizaCliente}
    (h : cs.find? (fun r => r.id == cid) = none) :
    atualizar_cliente pd cs cid d = ((false, "Cliente não encontrado"), cs) := by
  unfold atualizar_cliente
  rw [h]

theorem atualizar_cliente_eq_nofields {pd : String → Option String}
    {cs : List ClienteRow} {cid : Nat} {d : DadosAtualizaCliente} {r : ClienteRow}
    (h : cs.find? (fun r => r.id == cid) = some r)
    (hc : (camposCliente pd d).isEmpty = true) :
    atualizar_cliente pd cs cid d = ((false, "Nenhum dado para atualizar"), cs) := by
  unfold atualizar_cliente
  rw [h]
  dsimp only
  rw [hc]
  rfl

theorem atualizar_cliente_eq_ok {pd : String → Option String}
    {cs : List ClienteRow} {cid : Nat} {d : DadosAtualizaCliente} {r : ClienteRow}
    (h : cs.find? (fun r => r.id == cid) = some r)
    (hc : (camposCliente pd d).isEmpty = false) :
    atualizar_cliente pd cs cid d = ((true, "Cliente atualizado com sucesso!"),
      cs.map (fun x => if x.id == cid then
        (camposCliente pd d).foldl (fun acc cv => setClienteCol acc cv.1 cv.2) x
        else x)) := by
  unfold atualizar_cliente
  rw [h]
  dsimp only
  rw [hc]
  rfl

theorem atualizar_produto_eq_notfound {ps : List ProdutoUpdRow} {pid : Nat}
    {d : DadosAtualizaProduto}
    (h : ps.find? (fun r => r.id == pid) = none) :
    atualizar_produto ps pid d = ((false, "Produto não encontrado"), ps) := by
  unfold atualizar_produto
  rw [h]

theorem atualizar_produto_eq_nofields {ps : List ProdutoUpdRow} {pid : Nat}
    {d : DadosAtualizaProduto} {r : ProdutoUpdRow}
    (h : ps.find? (fun r => r.id == pid) = some r)
    (hc : (camposProduto d).isEmpty = true) :
    atualizar_produto ps pid d = ((false, "Nenhum dado para atualizar"), ps) := by
  unfold atualizar_produto
  rw [h]
  dsimp only
  rw [hc]
  rfl

theorem atualizar_produto_eq_ok {ps : List ProdutoUpdRow} {pid : Nat}
    {d : DadosAtualizaProduto} {r : ProdutoUpdRow}
    (h : ps.find? (fun r => r.id == pid) = some r)
    (hc : (camposProduto d).isEmpty = false) :
    atualizar_produto ps pid d = ((true, "Produto atualizado com sucesso!"),
      ps.map (fun x => if x.id == pid then
        (camposProduto d).foldl (fun acc cv => setProdutoCol acc cv.1 cv.2) x
        else x)) := by
  unfold atualizar_produto
  rw [h]
  dsimp only
  rw [hc]
  rfl

theorem forall2_map_self {α : Type} (R : α → α → Prop) (f : α → α) (l : List α)
    (h : ∀ x ∈ l, R x (f x)) : List.Forall₂ R l (l.map f) := by
  induction l with
  | nil => exact List.Forall₂.nil
  | cons a t ih =>
    exact List.Forall₂.cons (h a (List.mem_cons_self _ _))
      (ih fun x hx => h x (List.mem_cons_of_mem _ hx))

theorem forall2_self {α : Type} (R : α → α → Prop) (l : List α)
    (h : ∀ x ∈ l, R x x) : List.Forall₂ R l l := by
  have := forall2_map_self R id l h
  simpa using this

/-- C8: updates are partial.  For both atualizar_cliente and
atualizar_produto: a failed call leaves the table unchanged; a call whose
dados dictionary supplies no recognized field fails; and in every case each
row relates to its updated image so that rows with a different id are
untouched, the id and (for clients) the cpf column never change, and every
column whose dados field is not supplied keeps its previous value. -/
theorem C8_partial_updates :
    (∀ (pd : String → Option String) (cs : List ClienteRow) (cid : Nat)
        (d : DadosAtualizaCliente),
      (((atualizar_cliente pd cs cid d).1).1 = false →
        (atualizar_cliente pd cs cid d).2 = cs) ∧
      ((d.nome = none ∧ d.email = none ∧ d.telefone = none ∧ d.data_nascimento = none ∧ d.endereco = none ∧ d.cidade = none ∧ d.estado = none ∧ d.cep = none ∧ d.ativo = none) →
        ((atualizar_cliente pd cs cid d).1).1 = false) ∧
      List.Forall₂ (fun old new =>
          (old.id ≠ cid → new = old) ∧
          new.id = old.id ∧ new.cpf = old.cpf ∧
          (d.nome = none → new.nome = old.nome) ∧
          (d.email = none → new.email = old.email) ∧
          (d.telefone = none → new.telefone = old.telefone) ∧
          (d.data_nascimento = none → new.data_nascimento = old.data_nascimento) ∧
          (d.endereco = none → new.endereco = old.endereco) ∧
          (d.cidade = none → new.cidade = old.cidade) ∧
          (d.estado = none → new.estado = old.estado) ∧
          (d.cep = none → new.cep = old.cep) ∧
          (d.ativo = none → new.ativo = old.ativo))
        cs ((atualizar_cliente pd cs cid d).2)) ∧
    (∀ (ps : List ProdutoUpdRow) (pid : Nat) (d : DadosAtualizaProduto),
      (((atualizar_produto ps pid d).1).1 = false →
        (atualizar_produto ps pid d).2 = ps) ∧
      ((d.codigo_barras = none ∧ d.nome = none ∧ d.descricao = none ∧ d.categoria_id = none ∧ d.fabricante = none ∧ d.preco_custo = none ∧ d.preco_venda = none ∧ d.quantidade_estoque = none ∧ d.estoque_minimo = none ∧ d.ativo = none) →
        ((atualizar_produto ps pid d).1).1 = false) ∧
      List.Forall₂ (fun old new =>
          (old.id ≠ pid → new = old) ∧
          new.id = old.id ∧
          (d.codigo_barras = none → new.codigo_barras = old.codigo_barras) ∧
          (d.nome = none → new.nome = old.nome) ∧
          (d.descricao = none → new.descricao = old.descricao) ∧
          (d.categoria_id = none → new.categoria_id = old.categoria_id) ∧
          (d.fabricante = none → new.fabricante = old.fabricante) ∧
          (d.preco_custo = none → new.preco_custo = old.preco_custo) ∧
          (d.preco_venda = none → new.preco_venda = old.preco_venda) ∧
          (d.quantidade_estoque = none → new.quantidade_estoque = old.quantidade_estoque) ∧
          (d.estoque_minimo = none → new.estoque_minimo = old.estoque_minimo) ∧
          (d.ativo = none → new.ativo = old.ativo))
        ps ((atualizar_produto ps pid d).2)) := by
  constructor
  · intro pd cs cid d
    have hrefl : ∀ x : ClienteRow, (x.id ≠ cid → x = x) ∧ x.id = x.id ∧ x.cpf = x.cpf ∧
        (d.nome = none → x.nome = x.nome) ∧
        (d.email = none → x.email = x.email) ∧
        (d.telefone = none → x.telefone = x.telefone) ∧
        (d.data_nascimento = none → x.data_nascimento = x.data_nascimento) ∧
        (d.endereco = none → x.endereco = x.endereco) ∧
        (d.cidade = none → x.cidade = x.cidade) ∧
        (d.estado = none → x.estado = x.estado) ∧
        (d.cep = none → x.cep = x.cep) ∧
        (d.ativo = none → x.ativo = x.ativo) :=
      fun x => ⟨fun _ => rfl, rfl, rfl, fun _ => rfl, fun _ => rfl, fun _ => rfl, fun _ => rfl, fun _ => rfl, fun _ => rfl, fun _ => rfl, fun _ => rfl, fun _ => rfl⟩
    cases hfind : cs.find? (fun r => r.id == cid) with
    | none =>
      rw [atualizar_cliente_eq_notfound hfind]
      exact ⟨fun _ => rfl, fun _ => rfl, forall2_self _ cs (fun x _ => hrefl x)⟩
    | some r =>
      cases hcampos : (camposCliente pd d).isEmpty with
      | true =>
        rw [atualizar_cliente_eq_nofields hfind hcampos]
        exact ⟨fun _ => rfl, fun _ => rfl, forall2_self _ cs (fun x _ => hrefl x)⟩
      | false =>
        rw [atualizar_cliente_eq_ok hfind hcampos]
        refine ⟨fun hfalse => by simp at hfalse, fun hall => ?_, ?_⟩
        · obtain ⟨e1, e2, e3, e4, e5, e6, e7, e8, e9⟩ := hall
          have hnil : camposCliente pd d = [] := by
            unfold camposCliente
            rw [e1, e2, e3, e4, e5, e6, e7, e8, e9]
            rfl
          rw [hnil] at hcampos
          simp at hcampos
        · apply forall2_map_self
          intro x hx
          by_cases hid : x.id = cid
          · rw [if_pos (by simpa using hid)]
            refine ⟨fun hne => absurd hid hne, foldl_setClienteCol_id _ _, ?_, ?_, ?_, ?_, ?_, ?_, ?_, ?_, ?_, ?_⟩
            · exact getClienteCol_foldl_ne (camposCliente pd d) x "cpf"
                (camposCliente_ne pd d "cpf" (by simp))
            · intro e0
              exact getClienteCol_foldl_ne (camposCliente pd d) x "nome"
                (camposCliente_ne pd d "nome" (by simp [e0]))
            · intro e0
              exact getClienteCol_foldl_ne (camposCliente pd d) x "email"
                (camposCliente_ne pd d "email" (by simp [e0]))
            · intro e0
              exact getClienteCol_foldl_ne (camposCliente pd d) x "telefone"
                (camposCliente_ne pd d "telefone" (by simp [e0]))
            · intro e0
              exact getClienteCol_foldl_ne (camposCliente pd d) x "data_nascimento"
                (camposCliente_ne pd d "data_nascimento" (by simp [e0]))
            · intro e0
              exact getClienteCol_foldl_ne (camposCliente pd d) x "endereco"
                (camposCliente_ne pd d "endereco" (by simp [e0]))
            · intro e0
              exact getClienteCol_foldl_ne (camposCliente pd d) x "cidade"
                (camposCliente_ne pd d "cidade" (by simp [e0]))
            · intro e0
              exact getClienteCol_foldl_ne (camposCliente pd d) x "estado"
                (camposCliente_ne pd d "estado" (by simp [e0]))
            · intro e0
              exact getClienteCol_foldl_ne (camposCliente pd d) x "cep"
                (camposCliente_ne pd d "cep" (by simp [e0]))
            · intro e0
              exact getClienteCol_foldl_ne (camposCliente pd d) x "ativo"
                (camposCliente_ne pd d "ativo" (by simp [e0]))
          · rw [if_neg (by simpa using hid)]
            exact hrefl x
  · intro ps pid d
    have hrefl : ∀ x : ProdutoUpdRow, (x.id ≠ pid → x = x) ∧ x.id = x.id ∧
        (d.codigo_barras = none → x.codigo_barras = x.codigo_barras) ∧
        (d.nome = none → x.nome = x.nome) ∧
        (d.descricao = none → x.descricao = x.descricao) ∧
        (d.categoria_id = none → x.categoria_id = x.categoria_id) ∧
        (d.fabricante = none → x.fabricante = x.fabricante) ∧
        (d.preco_custo = none → x.preco_custo = x.preco_custo) ∧
        (d.preco_venda = none → x.preco_venda = x.preco_venda) ∧
        (d.quantidade_estoque = none → x.quantidade_estoque = x.quantidade_estoque) ∧
        (d.estoque_minimo = none → x.estoque_minimo = x.estoque_minimo) ∧
        (d.ativo = none → x.ativo = x.ativo) :=
      fun x => ⟨fun _ => rfl, rfl, fun _ => rfl, fun _ => rfl, fun _ => rfl, fun _ => rfl, fun _ => rfl, fun _ => rfl, fun _ => rfl, fun _ => rfl, fun _ => rfl, fun _ => rfl⟩
    cases hfind : ps.find? (fun r => r.id == pid) with
    | none =>
      rw [atualizar_produto_eq_notfound hfind]
      exact ⟨fun _ => rfl, fun _ => rfl, forall2_self _ ps (fun x _ => hrefl x)⟩
    | some r =>
      cases hcampos : (camposProduto d).isEmpty with
      | true =>
        rw [atualizar_produto_eq_nofields hfind hcampos]
        exact ⟨fun _ => rfl, fun _ => rfl, forall2_self _ ps (fun x _ => hrefl x)⟩
      | false =>
        rw [atualizar_produto_eq_ok hfind hcampos]
        refine ⟨fun hfalse => by simp at hfalse, fun hall => ?_, ?_⟩
        · obtain ⟨e1, e2, e3, e4, e5, e6, e7, e8, e9, e10⟩ := hall
          have hnil : camposProduto d = [] := by
            unfold camposProduto
            rw [e1, e2, e3, e4, e5, e6, e7, e8, e9, e10]
            rfl
          rw [hnil] at hcampos
          simp at hcampos
        · apply forall2_map_self
          intro x hx
          by_cases hid : x.id = pid
          · rw [if_pos (by simpa using hid)]
            refine ⟨fun hne => absurd hid hne, foldl_setProdutoCol_id _ _, ?_, ?_, ?_, ?_, ?_, ?_, ?_, ?_, ?_, ?_⟩
            · intro e0
              exact getProdutoCol_foldl_ne (camposProduto d) x "codigo_barras"
                (camposProduto_ne d "codigo_barras" (by simp [e0]))
            · intro e0
              exact getProdutoCol_foldl_ne (camposProduto d) x "nome"
                (camposProduto_ne d "nome" (by simp [e0]))
            · intro e0
              exact getProdutoCol_foldl_ne (camposProduto d) x "descricao"
                (camposProduto_ne d "descricao" (by simp [e0]))
            · intro e0
              exact getProdutoCol_foldl_ne (camposProduto d) x "categoria_id"
                (camposProduto_ne d "categoria_id" (by simp [e0]))
            · intro e0
              exact getProdutoCol_foldl_ne (camposProduto d) x "fabricante"
                (camposProduto_ne d "fabricante" (by simp [e0]))
            · intro e0
              exact getProdutoCol_foldl_ne (camposProduto d) x "preco_custo"
                (camposProduto_ne d "preco_custo" (by simp [e0]))
            · intro e0
              exact getProdutoCol_foldl_ne (camposProduto d) x "preco_venda"
                (camposProduto_ne d "preco_venda" (by simp [e0]))
            · intro e0
              exact getProdutoCol_foldl_ne (camposProduto d) x "quantidade_estoque"
                (camposProduto_ne d "quantidade_estoque" (by simp [e0]))
            · intro e0
              exact getProdutoCol_foldl_ne (camposProduto d) x "estoque_minimo"
                (camposProduto_ne d "estoque_minimo" (by simp [e0]))
            · intro e0
              exact getProdutoCol_foldl_ne (camposProduto d) x "ativo"
                (camposProduto_ne d "ativo" (by simp [e0]))
          · rw [if_neg (by simpa using hid)]
            exact hrefl x

/-- Witness for C8: a dados dictionary supplying no field fails and leaves
the one-row table unchanged. -/
theorem C8_witness :
    ((atualizar_cliente (fun _ => none)
      [⟨1, SqlVal.text "A", SqlVal.null, SqlVal.null, SqlVal.null, SqlVal.null,
        SqlVal.null, SqlVal.null, SqlVal.null, SqlVal.int 1, SqlVal.null⟩] 1
      ⟨none, none, none, none, none, none, none, none, none⟩).1).1 = false := by
  exact (C8_partial_updates.1 (fun _ => none)
      [⟨1, SqlVal.text "A", SqlVal.null, SqlVal.null, SqlVal.null, SqlVal.null,
        SqlVal.null, SqlVal.null, SqlVal.null, SqlVal.int 1, SqlVal.null⟩] 1
      ⟨none, none, none, none, none, none, none, none, none⟩).2.1
    ⟨rfl, rfl, rfl, rfl, rfl, rfl, rfl, rfl, rfl⟩

theorem cadastrar_categoria_spec (s : CatalogState) (nome : String)
    (descricao : Option String) (u : String) :
    (((cadastrar_categoria s nome descricao u).1).1 = true →
      ((cadastrar_categoria s nome descricao u).2).logs = s.logs + 1) ∧
    (((cadastrar_categoria s nome descricao u).1).1 = false →
      (cadastrar_categoria s nome descricao u).2 = s) := by
  unfold cadastrar_categoria
  by_cases h1 : pyUpper (pyTrim nome) = ""
  · rw [if_pos h1]
    exact ⟨fun h => by simp at h, fun _ => rfl⟩
  · rw [if_neg h1]
    cases h2 : s.categorias.any (fun c => c.nome == pyUpper (pyTrim nome)) with
    | true => exact ⟨fun h => by simp at h, fun _ => rfl⟩
    | false => exact ⟨fun _ => rfl, fun h => by simp at h⟩

/-- C9: the claim as frozen is false on the code.  cadastrar_produto given a
category name that does not yet exist calls cadastrar_categoria, which
writes its own audit entry, before logging the product registration: on an
empty catalog the call succeeds and appends two log rows, not one. -/
theorem C9_counterexample :
    ((cadastrar_produto ⟨[], [], 1, 1, 0⟩
      ⟨"PROD", 10, "", some "BEBIDAS", none, none, 5, 5, true⟩ "op").1).1 = true ∧
    ((cadastrar_produto ⟨[], [], 1, 1, 0⟩
      ⟨"PROD", 10, "", some "BEBIDAS", none, none, 5, 5, true⟩ "op").2).logs = 2 ∧
    (⟨[], [], 1, 1, 0⟩ : CatalogState).logs = 0 := by
  refine ⟨by decide, by decide, rfl⟩

theorem criar_promocao_logs (s : PromocaoState) (nome descricao tipo : String)
    (vd di df : Int) (st u : String) :
    ((criar_promocao s nome descricao tipo vd di df st u).1).1 = true →
    ((criar_promocao s nome descricao tipo vd di df st u).2).logs = s.logs + 1 := by
  unfold criar_promocao
  split_ifs <;> intro h
  · simp at h
  · simp at h
  · simp at h
  · rfl

theorem registrar_venda_logs (s : VendaState) (cid : Option Nat)
    (itens : List ItemPedido) (fp u : String) :
    ((registrar_venda s cid itens fp u).1).1 = true →
    ((registrar_venda s cid itens fp u).2).logs = s.logs + 1 := by
  by_cases hempty : itens.isEmpty
  · rw [registrar_venda_eq_empty hempty]
    intro h
    simp at h
  · rw [Bool.not_eq_true] at hempty
    cases hp : processarItens s.produtos itens with
    | error e =>
      rw [registrar_venda_eq_err hempty hp]
      intro h
      simp at h
    | ok pr =>
      obtain ⟨procs, vt⟩ := pr
      rw [registrar_venda_eq_ok hempty hp]
      intro _
      rfl

theorem cadastrar_individual_logs (cleanCpf : String → String)
    (validarCpf : String → Bool) (parseDate : String → Option String)
    (s : ClienteState) (dados : DadosCliente) (u : String) :
    ((cadastrar_individual cleanCpf validarCpf parseDate s dados u).1).1 = true →
    ((cadastrar_individual cleanCpf validarCpf parseDate s dados u).2).logs =
      s.logs + 1 := by
  intro h
  have hf := (cadastrar_individual_fails cleanCpf validarCpf parseDate s dados u).1
  rw [hf] at h
  simp at h

theorem cadastrar_produto_logs (s : CatalogState) (dados : DadosProduto) (u : String) :
    ((cadastrar_produto s dados u).1).1 = true →
    ((cadastrar_produto s dados u).2).logs =
      s.logs + (if categoriaAutoCriada s dados u then 2 else 1) := by
  unfold cadastrar_produto categoriaAutoCriada
  by_cases h1 : pyUpper (pyTrim dados.nome) = ""
  · rw [if_pos h1]
    intro h
    simp at h
  · rw [if_neg h1]
    by_cases h2 : dados.preco_venda ≤ 0
    · rw [if_pos h2]
      intro h
      simp at h
    · rw [if_neg h2]
      dsimp only
      cases h3 : (decide ¬pyTrim dados.codigo_barras = "" &&
          s.produtos.any (fun p => p.codigo_barras == some (pyTrim dados.codigo_barras))) with
      | true =>
        intro h
        simp at h
      | false =>
        cases hcat : dados.categoria with
        | none =>
          intro _
          rfl
        | some catName =>
          dsimp only
          cases hfind : s.categorias.find? (fun c => c.nome == catName) with
          | some c =>
            intro _
            rfl
          | none =>
            cases hr : ((cadastrar_categoria s catName
                (some ("Categoria criada automaticamente para " ++ pyUpper (pyTrim dados.nome)))
                u).1).1 with
            | true =>
              have hlog := (cadastrar_categoria_spec s catName
                (some ("Categoria criada automaticamente para " ++ pyUpper (pyTrim dados.nome)))
                u).1 hr
              dsimp only
              cases hf2 : ((cadastrar_categoria s catName
                  (some ("Categoria criada automaticamente para " ++ pyUpper (pyTrim dados.nome)))
                  u).2).categorias.find? (fun c => c.nome == catName) with
              | some c2 =>
                intro _
                show ((cadastrar_categoria s catName
                  (some ("Categoria criada automaticamente para " ++ pyUpper (pyTrim dados.nome)))
                  u).2).logs + 1 = s.logs + 2
                rw [hlog]
              | none =>
                intro _
                show ((cadastrar_categoria s catName
                  (some ("Categoria criada automaticamente para " ++ pyUpper (pyTrim dados.nome)))
                  u).2).logs + 1 = s.logs + 2
                rw [hlog]
            | false =>
              have hstate := (cadastrar_categoria_spec s catName
                (some ("Categoria criada automaticamente para " ++ pyUpper (pyTrim dados.nome)))
                u).2 hr
              intro _
              show ((cadastrar_categoria s catName
                (some ("Categoria criada automaticamente para " ++ pyUpper (pyTrim dados.nome)))
                u).2).logs + 1 = s.logs + 1
              rw [hstate]

/-- C9 (amended): every successful entity creation appends exactly one audit
log entry — except cadastrar_produto when its category name does not yet
exist and the automatic cadastrar_categoria call succeeds, in which case two
entries are appended (one for the auto-created category, one for the
product).  cadastrar_individual is covered vacuously: on the shipped schema
it never succeeds. -/
theorem C9_creation_audit_entries
    (sc : CatalogState) (nomeCat : String) (descCat : Option String)
    (dados : DadosProduto)
    (sp : PromocaoState) (pn pdsc tipo : String) (vd di df : Int) (st : String)
    (sv : VendaState) (cid : Option Nat) (itens : List ItemPedido) (fp : String)
    (cleanCpf : String → String) (validarCpf : String → Bool)
    (parseDate : String → Option String) (scli : ClienteState) (dc : DadosCliente)
    (u : String) :
    (((cadastrar_categoria sc nomeCat descCat u).1).1 = true →
      ((cadastrar_categoria sc nomeCat descCat u).2).logs = sc.logs + 1) ∧
    (((criar_promocao sp pn pdsc tipo vd di df st u).1).1 = true →
      ((criar_promocao sp pn pdsc tipo vd di df st u).2).logs = sp.logs + 1) ∧
    (((registrar_venda sv cid itens fp u).1).1 = true →
      ((registrar_venda sv cid itens fp u).2).logs = sv.logs + 1) ∧
    (((cadastrar_individual cleanCpf validarCpf parseDate scli dc u).1).1 = true →
      ((cadastrar_individual cleanCpf validarCpf parseDate scli dc u).2).logs =
        scli.logs + 1) ∧
    (((cadastrar_produto sc dados u).1).1 = true →
      ((cadastrar_produto sc dados u).2).logs =
        sc.logs + (if categoriaAutoCriada sc dados u then 2 else 1)) :=
  ⟨(cadastrar_categoria_spec sc nomeCat descCat u).1,
   criar_promocao_logs sp pn pdsc tipo vd di df st u,
   registrar_venda_logs sv cid itens fp u,
   cadastrar_individual_logs cleanCpf validarCpf parseDate scli dc u,
   cadastrar_produto_logs sc dados u⟩

/-- Witness for C9: a concrete successful category creation appends exactly
one audit entry. -/
theorem C9_witness :
    ((cadastrar_categoria ⟨[], [], 1, 1, 0⟩ "CAT" none "op").2).logs = 0 + 1 := by
  exact (C9_creation_audit_entries ⟨[], [], 1, 1, 0⟩ "CAT" none
    ⟨"P", 1, "", none, none, none, 0, 5, true⟩ ⟨[], [], 1, 0⟩ "N" "D" "T" 1 0 0 "S"
    ⟨[], [], [], 1, 0⟩ none [] "PIX" id (fun _ => true) (fun _ => none)
    ⟨[], 1, 0⟩ ⟨"A", none, none, none, none, none, none, none, none⟩ "op").1 (by decide)

theorem rankAt_pos (xs : List Int) (i : Nat) : 1 ≤ rankAt xs i := by
  unfold rankAt
  omega

theorem rankAt_le (xs : List Int) (i : Nat) (hi : i < xs.length) :
    rankAt xs i ≤ xs.length := by
  unfold rankAt
  have hsub : (Finset.range xs.length).filter (fun j =>
      xs.getD j 0 < xs.getD i 0 ∨ (xs.getD j 0 = xs.getD i 0 ∧ j < i)) ⊆
      (Finset.range xs.length).filter (fun j => j ≠ i) := by
    apply Finset.monotone_filter_right
    intro j hcase
    intro hji
    subst hji
    rcases hcase with h | ⟨_, h⟩
    · exact absurd h (lt_irrefl _)
    · exact absurd h (lt_irrefl _)
  have hcard := Finset.card_le_card hsub
  rw [Finset.filter_ne', Finset.card_erase_of_mem (Finset.mem_range.mpr hi),
    Finset.card_range] at hcard
  omega

theorem rankAt_lt_of_lt {xs : List Int} {i j : Nat} (hi : i < xs.length)
    (hj : j < xs.length) (hlt : xs.getD i 0 < xs.getD j 0) :
    rankAt xs i < rankAt xs j := by
  unfold rankAt
  have hss : (Finset.range xs.length).filter (fun k =>
      xs.getD k 0 < xs.getD i 0 ∨ (xs.getD k 0 = xs.getD i 0 ∧ k < i)) ⊂
      (Finset.range xs.length).filter (fun k =>
      xs.getD k 0 < xs.getD j 0 ∨ (xs.getD k 0 = xs.getD j 0 ∧ k < j)) := by
    rw [Finset.ssubset_iff_of_subset]
    · refine ⟨i, Finset.mem_filter.mpr ⟨Finset.mem_range.mpr hi, Or.inl hlt⟩, ?_⟩
      intro hmem
      rcases (Finset.mem_filter.mp hmem).2 with h | ⟨_, h⟩
      · exact absurd h (lt_irrefl _)
      · exact absurd h (lt_irrefl _)
    · apply Finset.monotone_filter_right
      intro k hcase
      left
      rcases hcase with h | ⟨h, _⟩
      · exact lt_trans h hlt
      · exact h ▸ hlt
  have := Finset.card_lt_card hss
  omega

theorem binOfRank_lower {n r : Nat} (hn : 2 ≤ n) (hr : r ≤ n) :
    1 ≤ binOfRank n r := by
  unfold binOfRank
  by_cases h1 : r ≤ 1
  · rw [if_pos h1]
  · rw [if_neg h1]
    rw [Nat.le_div_iff_mul_le (by omega)]
    omega

theorem binOfRank_upper {n r : Nat} (hn : 2 ≤ n) (hr : r ≤ n) :
    binOfRank n r ≤ 5 := by
  unfold binOfRank
  by_cases h1 : r ≤ 1
  · rw [if_pos h1]
    omega
  · rw [if_neg h1]
    have h6 : (5 * (r - 1) + (n - 2)) / (n - 1) < 6 := by
      rw [Nat.div_lt_iff_lt_mul (by omega)]
      omega
    omega

theorem binOfRank_mono {n r r' : Nat} (hn : 2 ≤ n) (h : r ≤ r') :
    binOfRank n r ≤ binOfRank n r' := by
  unfold binOfRank
  by_cases h1 : r ≤ 1
  · rw [if_pos h1]
    by_cases h2 : r' ≤ 1
    · rw [if_pos h2]
    · rw [if_neg h2]
      rw [Nat.le_div_iff_mul_le (by omega)]
      omega
  · rw [if_neg h1, if_neg (by omega : ¬r' ≤ 1)]
    exact Nat.div_le_div_right (by omega)

theorem getD_scores {metric : List Int} {i : Nat} (hi : i < metric.length)
    (f : Nat → Nat) :
    ((rankFirst metric).map f).getD i 0 = f (rankAt metric i) := by
  unfold rankFirst
  rw [List.getD_eq_getElem?_getD, List.getElem?_map, List.getElem?_map,
    List.getElem?_range hi]
  rfl

/-- C10: the claim as frozen is false on the code.  Two clients with the
same purchase frequency (value 2, at dataframe positions 1 and 2 of ten
clients) receive different F scores (1 and 2): rank(method='first') breaks
the tie by row order and the tied pair straddles a quantile boundary, so the
score is not a function of the metric and in particular not monotone in it. -/
theorem C10_counterexample :
    ([1, 2, 2, 3, 4, 5, 6, 7, 8, 9] : List Int).getD 1 0 =
      ([1, 2, 2, 3, 4, 5, 6, 7, 8, 9] : List Int).getD 2 0 ∧
    (safe_rfm_scoring [1, 2, 2, 3, 4, 5, 6, 7, 8, 9] false).getD 1 0 = 1 ∧
    (safe_rfm_scoring [1, 2, 2, 3, 4, 5, 6, 7, 8, 9] false).getD 2 0 = 2 := by
  refine ⟨rfl, by decide, by decide⟩

/-- C10 (amended): every client with a purchase gets R, F and M scores in
1..5 by quantile bucketing of first-method ranks; across clients with
strictly ordered metric values the scores are weakly monotone (ascending for
frequency/monetary, descending in days-since-last-purchase, so more recent
buyers score R at least as high), while clients tied on a metric may receive
different scores because ties are broken by dataframe row order; and the
classification depends only on the R+F+M sum, with thresholds 13 (champion),
10 (loyal), 7 (promising) and 4 (at risk). -/
theorem C10_rfm_scoring :
    (∀ (metric : List Int) (reverse : Bool),
      ∀ sc ∈ safe_rfm_scoring metric reverse, 1 ≤ sc ∧ sc ≤ 5) ∧
    (∀ (metric : List Int) (i j : Nat), i < metric.length → j < metric.length →
      metric.getD i 0 < metric.getD j 0 →
      (safe_rfm_scoring metric false).getD i 0 ≤
        (safe_rfm_scoring metric false).getD j 0 ∧
      (safe_rfm_scoring metric true).getD j 0 ≤
        (safe_rfm_scoring metric true).getD i 0) ∧
    (∀ t : Int,
      (13 ≤ t → classificar_cliente t = "🏆 CAMPEÃO") ∧
      (10 ≤ t ∧ t < 13 → classificar_cliente t = "⭐ LEAL") ∧
      (7 ≤ t ∧ t < 10 → classificar_cliente t = "📈 PROMISSOR") ∧
      (4 ≤ t ∧ t < 7 → classificar_cliente t = "⚠️ EM RISCO") ∧
      (t < 4 → classificar_cliente t = "❌ INATIVO")) := by
  refine ⟨?_, ?_, ?_⟩
  · intro metric reverse sc hsc
    unfold safe_rfm_scoring at hsc
    by_cases hlen : metric.length = 1
    · rw [if_pos hlen] at hsc
      cases reverse <;> simp at hsc <;> omega
    · rw [if_neg hlen] at hsc
      obtain ⟨r, hr, rfl⟩ := List.mem_map.mp hsc
      unfold rankFirst at hr
      obtain ⟨i, hi, rfl⟩ := List.mem_map.mp hr
      have hin : i < metric.length := List.mem_range.mp hi
      have hn : 2 ≤ metric.length := by omega
      have hb1 := binOfRank_lower hn (rankAt_le metric i hin)
      have hb5 := binOfRank_upper hn (rankAt_le metric i hin)
      cases reverse with
      | false => exact ⟨hb1, hb5⟩
      | true =>
        constructor
        · show 1 ≤ 6 - binOfRank metric.length (rankAt metric i)
          omega
        · show 6 - binOfRank metric.length (rankAt metric i) ≤ 5
          omega
  · intro metric i j hi hj hlt
    have hij : i ≠ j := fun he => absurd (he ▸ hlt) (lt_irrefl _)
    have hn : 2 ≤ metric.length := by omega
    have hrank := rankAt_lt_of_lt hi hj hlt
    have hrle : rankAt metric j ≤ metric.length := rankAt_le metric j hj
    have hbmono := binOfRank_mono (n := metric.length) hn (le_of_lt hrank)
    have hne : ¬metric.length = 1 := by omega
    simp only [safe_rfm_scoring, if_neg hne]
    rw [getD_scores hi, getD_scores hj, getD_scores hi, getD_scores hj]
    constructor
    · exact hbmono
    · show 6 - binOfRank metric.length (rankAt metric j) ≤
        6 - binOfRank metric.length (rankAt metric i)
      omega
  · intro t
    unfold classificar_cliente
    refine ⟨fun h => ?_, fun h => ?_, fun h => ?_, fun h => ?_, fun h => ?_⟩
    · rw [if_pos h]
    · rw [if_neg (by omega), if_pos h.1]
    · rw [if_neg (by omega), if_neg (by omega), if_pos h.1]
    · rw [if_neg (by omega), if_neg (by omega), if_neg (by omega), if_pos h.1]
    · rw [if_neg (by omega), if_neg (by omega), if_neg (by omega), if_neg (by omega)]

/-- Witness for C10: on two clients with metrics 3 < 5, the ascending score
of the first is at most that of the second, and a total score of 13 is
classified as champion. -/
theorem C10_witness :
    ((safe_rfm_scoring [3, 5] false).getD 0 0 ≤
      (safe_rfm_scoring [3, 5] false).getD 1 0) ∧
    classificar_cliente 13 = "🏆 CAMPEÃO" := by
  exact ⟨(C10_rfm_scoring.2.1 [3, 5] 0 1 (by decide) (by decide) (by decide)).1,
    (C10_rfm_scoring.2.2 13).1 (by decide)⟩
